import Mathlib

/-!
Shallow embedding of the 1plan backend (REST API over projects, documents,
features and sprints, plus the MCP gateway HTTP client), translated from the
TypeScript sources: validation schemas, route handlers, the central error
mapper, and the gateway request builder.
-/

namespace OnePlan

/-! ### Character classes and the slug generator (src/api/src/types/document.ts) -/

/-- Whitespace as matched by the regex whitespace class in generateSlug
(ASCII subset of the JS class; titles in the repository use these). -/
def isSlugWs (c : Char) : Bool :=
  c == ' ' || c == '\t' || c == '\n' || c == '\r'

/-- Lower-case ASCII letter or digit. -/
def isLowerAlnum (c : Char) : Bool :=
  (decide ('a' ≤ c) && decide (c ≤ 'z')) || (decide ('0' ≤ c) && decide (c ≤ '9'))

/-- Characters kept by the first replace of generateSlug: the complement of
the class that removes everything outside lower-case alphanumerics,
whitespace and hyphens. -/
def keepSlugChar (c : Char) : Bool :=
  isLowerAlnum c || isSlugWs c || c == '-'

/-- Worker for collapseRuns; the flag records whether we are inside a run of
characters satisfying p. -/
def collapseRunsGo (p : Char → Bool) (rep : Char) : Bool → List Char → List Char
  | _, [] => []
  | inRun, c :: cs =>
    if p c then
      if inRun then collapseRunsGo p rep true cs
      else rep :: collapseRunsGo p rep true cs
    else c :: collapseRunsGo p rep false cs

/-- Collapse every maximal run of characters satisfying p into a single
rep character: the semantics of a global regex replace of p-runs. -/
def collapseRuns (p : Char → Bool) (rep : Char) (l : List Char) : List Char :=
  collapseRunsGo p rep false l

/-- Remove a single leading hyphen if present (the start-anchored alternative
of the final replace in generateSlug). -/
def dropLeadHyphen : List Char → List Char
  | '-' :: cs => cs
  | l => l

/-- The final replace of generateSlug: the global regex with the two
end-anchored alternatives removes one leading and one trailing hyphen. -/
def trimHyphens (l : List Char) : List Char :=
  (dropLeadHyphen (dropLeadHyphen l).reverse).reverse

/-- Slug generation from a title (generateSlug in
src/api/src/types/document.ts): lower-case; remove characters outside
lower-case alphanumerics, whitespace and hyphens; replace whitespace runs by
single hyphens; collapse hyphen runs; strip the leading/trailing hyphen. -/
def generateSlug (title : String) : String :=
  let lowered := title.data.map Char.toLower
  let stripped := lowered.filter keepSlugChar
  let hyphened := collapseRuns isSlugWs '-' stripped
  let collapsed := collapseRuns (fun c => c == '-') '-' hyphened
  String.mk (trimHyphens collapsed)

/-- Slug derivation exactly as the specification words it, for comparison
with generateSlug: title lower-cased, characters outside lower-case
alphanumerics acting as hyphen separators (each maximal run of
whitespace/punctuation collapsed to a single hyphen), and no leading or
trailing hyphen. -/
def slugSpecC2 (title : String) : String :=
  let lowered := title.data.map Char.toLower
  let hyphened := collapseRuns (fun c => !(isLowerAlnum c)) '-' lowered
  String.mk (trimHyphens hyphened)

/-! ### Data model (prisma schema; migration 20250820074829_init)

Timestamps and ISO-8601 datetimes are modeled by their position on the
timeline as integers; generated cuids and clock reads are drawn from one
monotone counter carried in the store state. -/

/-- A row of the projects table. -/
structure Project where
  id : String
  name : String
  createdAt : Int
  updatedAt : Int
  deriving Repr, DecidableEq

/-- A row of the documents table; slug is nullable in the schema. -/
structure Document where
  id : String
  projectId : String
  kind : String
  title : String
  content : String
  slug : Option String
  createdAt : Int
  updatedAt : Int
  deriving Repr, DecidableEq

/-- A row of the features table. -/
structure Feature where
  id : String
  projectId : String
  featureId : String
  title : String
  version : String
  status : String
  area : String
  createdAt : Int
  updatedAt : Int
  deriving Repr, DecidableEq

/-- A row of the sprints table. -/
structure Sprint where
  id : String
  projectId : String
  code : String
  name : String
  status : String
  startDate : Option Int
  endDate : Option Int
  createdAt : Int
  updatedAt : Int
  deriving Repr, DecidableEq

/-- A row of the sprint_items table. -/
structure SprintItem where
  id : String
  sprintId : String
  text : String
  checked : Bool
  order : Nat
  createdAt : Int
  updatedAt : Int
  deriving Repr, DecidableEq

/-- The relational store: one list per table plus the id/clock counter. -/
structure DbState where
  projects : List Project
  documents : List Document
  features : List Feature
  sprints : List Sprint
  sprintItems : List SprintItem
  nextId : Nat
  deriving Repr, DecidableEq

/-- A generated row id (cuid generation modeled from the counter). -/
def freshId (n : Nat) : String :=
  "row" ++ toString n

/-! ### Validation primitives shared by the zod schemas -/

/-- Matches the sprint-code regex: the literal SPR- followed by digits. -/
def isSprCode (s : String) : Bool :=
  match s.data with
  | 'S' :: 'P' :: 'R' :: '-' :: rest => !rest.isEmpty && rest.all Char.isDigit
  | _ => false

/-- Matches the feature-code regex: the literal FEAT- followed by digits. -/
def isFeatCode (s : String) : Bool :=
  match s.data with
  | 'F' :: 'E' :: 'A' :: 'T' :: '-' :: rest => !rest.isEmpty && rest.all Char.isDigit
  | _ => false

/-- Matches the slug pattern of one or more lowercase letters, digits or
hyphens. -/
def isSlugPattern (s : String) : Bool :=
  !s.data.isEmpty && s.data.all (fun c => isLowerAlnum c || c == '-')

/-- Matches the zod cuid pattern: a leading c (case-insensitive) followed by
at least eight characters, none of them whitespace or a hyphen. -/
def isCuid (s : String) : Bool :=
  match s.data with
  | c :: rest =>
    (c == 'c' || c == 'C') && decide (8 ≤ rest.length)
      && rest.all (fun ch => !isSlugWs ch && ch != '-')
  | [] => false

/-- The closed sprint status enumeration. -/
def sprintStatuses : List String :=
  ["PLANNED", "ACTIVE", "DONE", "CANCELLED"]

/-- The closed feature status enumeration. -/
def featureStatuses : List String :=
  ["PLANNED", "IN_PROGRESS", "COMPLETED", "CANCELLED"]

/-- The closed document kind enumeration. -/
def documentKinds : List String :=
  ["PRD", "TECH_OVERVIEW", "SPRINT_OVERVIEW", "SPRINT", "FREEFORM"]

/-! ### Sprint schemas (src/api/src/routes/sprints.ts lines 7-41)

Raw inputs model a decoded JSON body: an absent field is none. Wrongly typed
JSON fields (which zod also rejects) are outside the model; datetime strings
are carried as timeline integers and their format check always passes. Zod
collects the issues of every violated field, modeled as a message list. -/

/-- A submitted sprint item before validation. -/
structure RawSprintItem where
  text : Option String
  checked : Option Bool
  order : Option Int
  deriving Repr, DecidableEq

/-- A POST /sprints body before validation. -/
structure RawCreateSprint where
  projectId : Option String
  code : Option String
  name : Option String
  status : Option String
  startDate : Option Int
  endDate : Option Int
  items : Option (List RawSprintItem)
  deriving Repr, DecidableEq

/-- A PATCH /sprints/:id body before validation. -/
structure RawUpdateSprint where
  code : Option String
  name : Option String
  status : Option String
  startDate : Option Int
  endDate : Option Int
  items : Option (List RawSprintItem)
  deriving Repr, DecidableEq

/-- A sprint item as SprintItemSchema types it, defaults applied. -/
structure SprintItemInput where
  text : String
  checked : Bool
  order : Nat
  deriving Repr, DecidableEq

/-- A POST /sprints body as CreateSprintSchema types it, defaults applied. -/
structure CreateSprintData where
  projectId : String
  code : String
  name : String
  status : String
  startDate : Option Int
  endDate : Option Int
  items : List SprintItemInput
  deriving Repr, DecidableEq

/-- A PATCH /sprints/:id body as UpdateSprintSchema types it. -/
structure UpdateSprintData where
  code : Option String
  name : Option String
  status : Option String
  startDate : Option Int
  endDate : Option Int
  items : Option (List SprintItemInput)
  deriving Repr, DecidableEq

/-- Issues SprintItemSchema raises for one submitted item: text required,
nonempty, at most 500 characters; order an integer at least 0. -/
def sprintItemIssues (it : RawSprintItem) : List String :=
  (match it.text with
   | none => ["Required"]
   | some t =>
     (if t.length = 0 then ["Item text is required"] else [])
       ++ (if 500 < t.length then ["Item text must be 500 characters or less"] else []))
    ++ (match it.order with
        | none => []
        | some o => if o < 0 then ["Number must be greater than or equal to 0"] else [])

/-- The typed item SprintItemSchema produces once no issue was raised
(checked defaults to false, order to 0). -/
def sprintItemValue (it : RawSprintItem) : SprintItemInput :=
  { text := it.text.getD ""
    checked := it.checked.getD false
    order := (it.order.getD 0).toNat }

/-- Issues CreateSprintSchema raises across all fields. -/
def createSprintIssues (r : RawCreateSprint) : List String :=
  (match r.projectId with
   | none => ["Required"]
   | some p => if p.length = 0 then ["Project ID is required"] else [])
    ++ (match r.code with
        | none => ["Required"]
        | some c =>
          (if c.length = 0 then ["Sprint code is required"] else [])
            ++ (if isSprCode c then [] else ["Sprint code must match format SPR-XXX"]))
    ++ (match r.name with
        | none => ["Required"]
        | some n =>
          (if n.length = 0 then ["Name is required"] else [])
            ++ (if 200 < n.length then ["Name must be 200 characters or less"] else []))
    ++ (match r.status with
        | none => []
        | some s => if sprintStatuses.contains s then [] else ["Invalid enum value"])
    ++ (match r.items with
        | none => []
        | some l => (l.map sprintItemIssues).flatten)

/-- CreateSprintSchema.parse: the typed body, or every violated field. -/
def parseCreateSprint (r : RawCreateSprint) : Except (List String) CreateSprintData :=
  match createSprintIssues r with
  | [] => .ok
      { projectId := r.projectId.getD ""
        code := r.code.getD ""
        name := r.name.getD ""
        status := r.status.getD "PLANNED"
        startDate := r.startDate
        endDate := r.endDate
        items := (r.items.getD []).map sprintItemValue }
  | issues => .error issues

/-- Issues UpdateSprintSchema raises: every field optional, the same
per-field rules applied when present (code carries only the regex rule). -/
def updateSprintIssues (r : RawUpdateSprint) : List String :=
  (match r.code with
   | none => []
   | some c => if isSprCode c then [] else ["Sprint code must match format SPR-XXX"])
    ++ (match r.name with
        | none => []
        | some n =>
          (if n.length = 0 then ["Name is required"] else [])
            ++ (if 200 < n.length then ["Name must be 200 characters or less"] else []))
    ++ (match r.status with
        | none => []
        | some s => if sprintStatuses.contains s then [] else ["Invalid enum value"])
    ++ (match r.items with
        | none => []
        | some l => (l.map sprintItemIssues).flatten)

/-- UpdateSprintSchema.parse. -/
def parseUpdateSprint (r : RawUpdateSprint) : Except (List String) UpdateSprintData :=
  match updateSprintIssues r with
  | [] => .ok
      { code := r.code
        name := r.name
        status := r.status
        startDate := r.startDate
        endDate := r.endDate
        items := r.items.map (·.map sprintItemValue) }
  | issues => .error issues

/-! ### Problem details and the central error handler
(src/api/src/middleware/error-handler.ts) -/

/-- The RFC7807-style body built by the error layer and by the literal error
replies inside the routes. The source field named instance is a reserved
word here, hence instanceUrl; issues carries the enumerable payload (zod
issues, validation details). -/
structure ProblemDetails where
  type : String
  title : String
  status : Nat
  detail : String
  instanceUrl : Option String
  requestId : Option String
  issues : List String
  deriving Repr, DecidableEq

/-- The failures that can reach the central errorHandler, in the shape its
instanceof/field checks distinguish. A statusCode of 0 models the absent
(falsy) statusCode of a plain Error. -/
inductive RaisedError where
  | zodError (issues : List String)
  | prismaKnown (code : String)
  | apiError (name : String) (statusCode : Nat) (code : Option String)
      (message : String) (details : List String)
  | generic
  deriving Repr, DecidableEq

/-- Lower-case an ASCII string (String.prototype.toLowerCase on the
error-code strings used here). -/
def lowerStr (s : String) : String :=
  String.mk (s.data.map Char.toLower)

/-- Whether the first list starts the second. -/
def startsList : List Char → List Char → Bool
  | [], _ => true
  | _ :: _, [] => false
  | a :: as, b :: bs => a == b && startsList as bs

/-- Whether the pattern occurs somewhere in the list. -/
def listHasInfix (pat : List Char) : List Char → Bool
  | [] => pat.isEmpty
  | c :: cs => startsList pat (c :: cs) || listHasInfix pat cs

/-- True when the message matches the rate-limit regex (the words rate and
limit separated by optional whitespace, case-insensitive). -/
def msgMentionsRateLimit (msg : String) : Bool :=
  listHasInfix "ratelimit".data ((lowerStr msg).data.filter (fun c => !isSlugWs c))

/-- The central errorHandler: collapses every raised failure into one
ProblemDetails body, following the branch order of the source (zod, known
prisma codes, the rate-limit checks, custom statusCode errors, generic). -/
def errorHandler (e : RaisedError) (url : String) (requestId : String) : ProblemDetails :=
  let base : ProblemDetails :=
    match e with
    | .zodError issues =>
      { type := "https://1plan.dev/errors/validation-error"
        title := "Validation Error", status := 400
        detail := "Request validation failed"
        instanceUrl := some url, requestId := none, issues := issues }
    | .prismaKnown code =>
      if code == "P2002" then
        { type := "https://1plan.dev/errors/conflict"
          title := "Conflict", status := 409
          detail := "Resource already exists"
          instanceUrl := some url, requestId := none, issues := [] }
      else if code == "P2025" then
        { type := "https://1plan.dev/errors/not-found"
          title := "Not Found", status := 404
          detail := "Resource not found"
          instanceUrl := some url, requestId := none, issues := [] }
      else
        { type := "https://1plan.dev/errors/database-error"
          title := "Database Error", status := 500
          detail := "An error occurred while accessing the database"
          instanceUrl := some url, requestId := none, issues := [] }
    | .apiError name statusCode code message details =>
      if statusCode == 429 || msgMentionsRateLimit message then
        { type := "https://1plan.dev/errors/rate-limit-exceeded"
          title := "Rate Limit Exceeded", status := 429
          detail := message
          instanceUrl := some url, requestId := none, issues := [] }
      else if statusCode != 0 then
        { type := "https://1plan.dev/errors/" ++ (code.map lowerStr).getD "api-error"
          title := name, status := statusCode
          detail := message
          instanceUrl := some url, requestId := none, issues := details }
      else
        { type := "https://1plan.dev/errors/internal-server-error"
          title := "Internal Server Error", status := 500
          detail := "An unexpected error occurred"
          instanceUrl := some url, requestId := none, issues := [] }
    | .generic =>
      { type := "https://1plan.dev/errors/internal-server-error"
        title := "Internal Server Error", status := 500
        detail := "An unexpected error occurred"
        instanceUrl := some url, requestId := none, issues := [] }
  { base with requestId := some requestId }

/-! ### Sprint routes (src/api/src/routes/sprints.ts)

The sprints routes answer errors with literal bodies of the problem-detail
shape rather than through the central handler; success payloads carry the
sprint row and its items. The store transaction of create/update is a pure
Except computation: an error inside it leaves the committed state unchanged,
exactly as a rolled-back transaction does. A store-level failure of one item
insert (the only fallible write here) is modeled by the oracle itemInsertOk.
-/

/-- Outcome of a sprint route call. -/
structure SprintRouteResult where
  status : Nat
  problem : Option ProblemDetails
  sprint : Option (Sprint × List SprintItem)
  state : DbState
  deriving Repr, DecidableEq

/-- Literal error body the sprints/features routes send: type, title,
status, detail, requestId (and zod issues when present). -/
def routeProblem (typeTag : String) (title : String) (status : Nat)
    (detail : String) (requestId : Option String) (issues : List String) :
    ProblemDetails :=
  { type := "https://1plan.dev/errors/" ++ typeTag
    title := title, status := status, detail := detail
    instanceUrl := none, requestId := requestId, issues := issues }

/-- The sprint item row the insert loop submits to the store: the i-th item
is inserted with order item.order, or i when item.order is 0 (the source
computes item.order or-else i, and 0 is falsy). -/
def mkItemRow (sid : String) (it : SprintItemInput) (i n : Nat) : SprintItem :=
  { id := freshId n, sprintId := sid, text := it.text, checked := it.checked
    order := if it.order = 0 then i else it.order
    createdAt := (n : Int), updatedAt := (n : Int) }

/-- The item-insert loop shared verbatim by the create and the update
transaction (sprints.ts lines 119-131 and 424-435): each submitted item is
inserted in order; a failing insert aborts the transaction. -/
def createItemsLoop (ok : SprintItem → Bool) (sprintId : String) :
    List SprintItemInput → Nat → Nat → Except Unit (List SprintItem × Nat)
  | [], _, nextId => .ok ([], nextId)
  | it :: rest, i, nextId =>
    let row := mkItemRow sprintId it i nextId
    if ok row then
      match createItemsLoop ok sprintId rest (i + 1) (nextId + 1) with
      | .ok (rows, n) => .ok (row :: rows, n)
      | .error e => .error e
    else .error ()

/-- The POST /sprints transaction: insert the sprint row, then every item. -/
def createSprintTx (st : DbState) (ok : SprintItem → Bool)
    (data : CreateSprintData) : Except Unit (Sprint × List SprintItem × DbState) :=
  let sid := freshId st.nextId
  let sprint : Sprint :=
    { id := sid, projectId := data.projectId, code := data.code
      name := data.name, status := data.status
      startDate := data.startDate, endDate := data.endDate
      createdAt := (st.nextId : Int), updatedAt := (st.nextId : Int) }
  match createItemsLoop ok sid data.items 0 (st.nextId + 1) with
  | .ok (rows, n) =>
    .ok (sprint, rows,
      { st with sprints := st.sprints ++ [sprint]
                sprintItems := st.sprintItems ++ rows
                nextId := n })
  | .error e => .error e

/-- POST /sprints: parse, project existence, duplicate code within the
project, the date-ordering check, then the transaction; a ZodError is caught
in the route itself and answered with 422 Validation Failed. -/
def createSprintRoute (st : DbState) (requestId : Option String)
    (itemInsertOk : SprintItem → Bool) (raw : RawCreateSprint) : SprintRouteResult :=
  match parseCreateSprint raw with
  | .error issues =>
    { status := 422
      problem := some (routeProblem "validation-failed" "Validation Failed" 422
        "Request body contains invalid data" requestId issues)
      sprint := none, state := st }
  | .ok data =>
    if !(st.projects.any (fun p => p.id == data.projectId)) then
      { status := 404
        problem := some (routeProblem "not-found" "Project Not Found" 404
          ("Project with ID " ++ data.projectId ++ " not found") requestId [])
        sprint := none, state := st }
    else if st.sprints.any (fun s => s.projectId == data.projectId && s.code == data.code) then
      { status := 409
        problem := some (routeProblem "conflict" "Sprint Already Exists" 409
          ("Sprint " ++ data.code ++ " already exists in project " ++ data.projectId)
          requestId [])
        sprint := none, state := st }
    else
      let dateBad :=
        match data.startDate, data.endDate with
        | some s, some e => decide (e ≤ s)
        | _, _ => false
      if dateBad then
        { status := 422
          problem := some (routeProblem "validation-failed" "Validation Failed" 422
            "End date must be after start date" requestId [])
          sprint := none, state := st }
      else
        match createSprintTx st itemInsertOk data with
        | .ok (sp, rows, st') =>
          { status := 201, problem := none, sprint := some (sp, rows), state := st' }
        | .error _ =>
          { status := 500
            problem := some (routeProblem "internal-error" "Internal Server Error" 500
              "An unexpected error occurred while creating the sprint" requestId [])
            sprint := none, state := st }

/-- The field updates PATCH /sprints/:id writes to the sprint row: a present
(schema-valid, hence non-falsy) field overwrites, an absent one keeps the
stored value. -/
def applySprintUpdates (s : Sprint) (u : UpdateSprintData) (now : Int) : Sprint :=
  { s with
    code := u.code.getD s.code
    name := u.name.getD s.name
    status := u.status.getD s.status
    startDate := match u.startDate with | some d => some d | none => s.startDate
    endDate := match u.endDate with | some d => some d | none => s.endDate
    updatedAt := now }

/-- The PATCH /sprints/:id transaction: update the sprint row; when a
replacement items array was supplied, delete every existing item of the
sprint and insert the new set. -/
def patchSprintTx (st : DbState) (ok : SprintItem → Bool) (existing : Sprint)
    (u : UpdateSprintData) : Except Unit (Sprint × List SprintItem × DbState) :=
  let updated := applySprintUpdates existing u (st.nextId : Int)
  let sprints' := st.sprints.map (fun s => if s.id == existing.id then updated else s)
  match u.items with
  | none =>
    .ok (updated, st.sprintItems.filter (fun it => it.sprintId == existing.id),
      { st with sprints := sprints', nextId := st.nextId + 1 })
  | some newItems =>
    let remaining := st.sprintItems.filter (fun it => it.sprintId != existing.id)
    match createItemsLoop ok existing.id newItems 0 (st.nextId + 1) with
    | .ok (rows, n) =>
      .ok (updated, rows,
        { st with sprints := sprints', sprintItems := remaining ++ rows, nextId := n })
    | .error e => .error e

/-- PATCH /sprints/:id: parse, load the sprint, code-conflict check, the
date-ordering check over a mix of new and stored values, then the
transaction. -/
def patchSprintRoute (st : DbState) (requestId : Option String)
    (itemInsertOk : SprintItem → Bool) (id : String) (raw : RawUpdateSprint) :
    SprintRouteResult :=
  match parseUpdateSprint raw with
  | .error issues =>
    { status := 422
      problem := some (routeProblem "validation-failed" "Validation Failed" 422
        "Request body contains invalid data" requestId issues)
      sprint := none, state := st }
  | .ok u =>
    match st.sprints.find? (fun s => s.id == id) with
    | none =>
      { status := 404
        problem := some (routeProblem "not-found" "Sprint Not Found" 404
          ("Sprint with ID " ++ id ++ " not found") requestId [])
        sprint := none, state := st }
    | some existing =>
      let codeConflict :=
        match u.code with
        | some c =>
          c != existing.code
            && st.sprints.any (fun s => s.projectId == existing.projectId && s.code == c)
        | none => false
      if codeConflict then
        { status := 409
          problem := some (routeProblem "conflict" "Sprint Code Conflict" 409
            ("Sprint " ++ u.code.getD "" ++ " already exists in this project")
            requestId [])
          sprint := none, state := st }
      else
        let startDate := match u.startDate with | some d => some d | none => existing.startDate
        let endDate := match u.endDate with | some d => some d | none => existing.endDate
        let dateBad :=
          match startDate, endDate with
          | some s, some e => decide (e ≤ s)
          | _, _ => false
        if dateBad then
          { status := 422
            problem := some (routeProblem "validation-failed" "Validation Failed" 422
              "End date must be after start date" requestId [])
            sprint := none, state := st }
        else
          match patchSprintTx st itemInsertOk existing u with
          | .ok (sp, rows, st') =>
            { status := 200, problem := none, sprint := some (sp, rows), state := st' }
          | .error _ =>
            { status := 500
              problem := some (routeProblem "internal-error" "Internal Server Error" 500
                "An unexpected error occurred while updating the sprint" requestId [])
              sprint := none, state := st }

/-! ### Document schemas (src/api/src/types/document.ts) and routes
(src/api/src/routes/documents.ts) -/

/-- A POST /documents body before validation. -/
structure RawCreateDocument where
  projectId : Option String
  kind : Option String
  title : Option String
  content : Option String
  slug : Option String
  deriving Repr, DecidableEq

/-- A POST /documents body as createDocumentSchema types it. -/
structure CreateDocumentData where
  projectId : String
  kind : String
  title : String
  content : String
  slug : Option String
  deriving Repr, DecidableEq

/-- A PATCH /documents/:id body: the route casts it to the update type
without running any schema, so the fields stay raw. -/
structure RawUpdateDocument where
  kind : Option String
  title : Option String
  content : Option String
  slug : Option String
  deriving Repr, DecidableEq

/-- Issues createDocumentSchema raises across all fields. -/
def createDocumentIssues (r : RawCreateDocument) : List String :=
  (match r.projectId with
   | none => ["Required"]
   | some p => if isCuid p then [] else ["Invalid project ID format"])
    ++ (match r.kind with
        | none => ["Required"]
        | some k => if documentKinds.contains k then [] else ["Invalid enum value"])
    ++ (match r.title with
        | none => ["Required"]
        | some t =>
          (if t.length = 0 then ["Title is required"] else [])
            ++ (if 200 < t.length then ["Title too long"] else []))
    ++ (match r.content with
        | none => ["Required"]
        | some c => if c.length = 0 then ["Content is required"] else [])
    ++ (match r.slug with
        | none => []
        | some s =>
          (if s.length = 0 then ["Slug is required"] else [])
            ++ (if 100 < s.length then ["Slug too long"] else [])
            ++ (if isSlugPattern s then []
                else ["Slug must contain only lowercase letters, numbers, and hyphens"]))

/-- createDocumentSchema.safeParse. -/
def parseCreateDocument (r : RawCreateDocument) : Except (List String) CreateDocumentData :=
  match createDocumentIssues r with
  | [] => .ok
      { projectId := r.projectId.getD ""
        kind := r.kind.getD ""
        title := r.title.getD ""
        content := r.content.getD ""
        slug := r.slug }
  | issues => .error issues

/-- Issues updateDocumentSchema raises: every create-rule applied to each
present field. The schema is exported from src/api/src/types/document.ts but
the PATCH /documents/:id route never invokes it. -/
def updateDocumentIssues (r : RawUpdateDocument) : List String :=
  (match r.kind with
   | none => []
   | some k => if documentKinds.contains k then [] else ["Invalid enum value"])
    ++ (match r.title with
        | none => []
        | some t =>
          (if t.length = 0 then ["Title is required"] else [])
            ++ (if 200 < t.length then ["Title too long"] else []))
    ++ (match r.content with
        | none => []
        | some c => if c.length = 0 then ["Content is required"] else [])
    ++ (match r.slug with
        | none => []
        | some s =>
          (if s.length = 0 then ["Slug is required"] else [])
            ++ (if 100 < s.length then ["Slug too long"] else [])
            ++ (if isSlugPattern s then []
                else ["Slug must contain only lowercase letters, numbers, and hyphens"]))

/-- Body of a document route response. The create route answers its own
validation failure with a literal 400 body of error plus details; thrown
errors (not-found, conflict) pass through the central errorHandler. -/
inductive DocRouteBody where
  | doc (d : Document)
  | invalid (error : String) (details : List String)
  | problem (p : ProblemDetails)
  deriving Repr, DecidableEq

/-- Outcome of a document route call. -/
structure DocRouteResult where
  status : Nat
  body : DocRouteBody
  state : DbState
  deriving Repr, DecidableEq

/-- POST /documents: safeParse, slug fallback to generateSlug (a present
slug is schema-nonempty, so its truthiness is presence), project existence,
then insert; the unique (projectId, slug) index raises P2002, rethrown as
ConflictError into the central handler. -/
def createDocumentRoute (st : DbState) (url : String) (requestId : String)
    (raw : RawCreateDocument) : DocRouteResult :=
  match parseCreateDocument raw with
  | .error issues =>
    { status := 400, body := .invalid "Validation failed" issues, state := st }
  | .ok data =>
    let slug := match data.slug with | some s => s | none => generateSlug data.title
    if !(st.projects.any (fun p => p.id == data.projectId)) then
      let p := errorHandler
        (.apiError "NotFoundError" 404 (some "NOT_FOUND") "Project not found" [])
        url requestId
      { status := p.status, body := .problem p, state := st }
    else if st.documents.any
        (fun d => d.projectId == data.projectId && d.slug == some slug) then
      let p := errorHandler
        (.apiError "ConflictError" 409 (some "CONFLICT")
          ("Document with slug " ++ slug ++ " already exists in this project") [])
        url requestId
      { status := p.status, body := .problem p, state := st }
    else
      let doc : Document :=
        { id := freshId st.nextId, projectId := data.projectId, kind := data.kind
          title := data.title, content := data.content, slug := some slug
          createdAt := (st.nextId : Int), updatedAt := (st.nextId : Int) }
      { status := 201, body := .doc doc
        state := { st with documents := st.documents ++ [doc], nextId := st.nextId + 1 } }

/-- Truthiness of an optional string: absent or empty is falsy. -/
def strFalsy : Option String → Bool
  | none => true
  | some s => s == ""

/-- PATCH /documents/:id: no schema runs; a truthy title with a falsy slug
regenerates the slug; every present field (empty strings included) is
written to the row; P2025 maps to NotFoundError, P2002 to ConflictError,
both through the central handler. -/
def patchDocumentRoute (st : DbState) (url : String) (requestId : String)
    (id : String) (raw : RawUpdateDocument) : DocRouteResult :=
  let body :=
    if !strFalsy raw.title && strFalsy raw.slug then
      { raw with slug := some (generateSlug (raw.title.getD "")) }
    else raw
  match st.documents.find? (fun d => d.id == id) with
  | none =>
    let p := errorHandler
      (.apiError "NotFoundError" 404 (some "NOT_FOUND") "Document not found" [])
      url requestId
    { status := p.status, body := .problem p, state := st }
  | some d =>
    let updated : Document :=
      { d with
        kind := body.kind.getD d.kind
        title := body.title.getD d.title
        content := body.content.getD d.content
        slug := match body.slug with | some s => some s | none => d.slug
        updatedAt := (st.nextId : Int) }
    let conflict :=
      match updated.slug with
      | some s => st.documents.any
          (fun o => o.id != id && o.projectId == updated.projectId && o.slug == some s)
      | none => false
    if conflict then
      let p := errorHandler
        (.apiError "ConflictError" 409 (some "CONFLICT")
          ("Document with slug " ++ (body.slug.getD "") ++ " already exists in this project") [])
        url requestId
      { status := p.status, body := .problem p, state := st }
    else
      { status := 200, body := .doc updated
        state := { st with
          documents := st.documents.map (fun o => if o.id == id then updated else o)
          nextId := st.nextId + 1 } }

/-! ### Feature update schema and PATCH route (src/api/src/routes/features.ts) -/

/-- A PATCH /features/:id body before validation. -/
structure RawUpdateFeature where
  featureId : Option String
  title : Option String
  version : Option String
  status : Option String
  area : Option String
  deriving Repr, DecidableEq

/-- A PATCH /features/:id body as UpdateFeatureSchema types it. -/
structure UpdateFeatureData where
  featureId : Option String
  title : Option String
  version : Option String
  status : Option String
  area : Option String
  deriving Repr, DecidableEq

/-- Issues UpdateFeatureSchema raises: every field optional, the create
per-field rules applied when present (version carries no rule). -/
def updateFeatureIssues (r : RawUpdateFeature) : List String :=
  (match r.featureId with
   | none => []
   | some f => if isFeatCode f then [] else ["Feature ID must match format FEAT-XXX"])
    ++ (match r.title with
        | none => []
        | some t =>
          (if t.length = 0 then ["Title is required"] else [])
            ++ (if 200 < t.length then ["Title must be 200 characters or less"] else []))
    ++ (match r.status with
        | none => []
        | some s => if featureStatuses.contains s then [] else ["Invalid enum value"])
    ++ (match r.area with
        | none => []
        | some a =>
          (if a.length = 0 then ["Area is required"] else [])
            ++ (if 100 < a.length then ["Area must be 100 characters or less"] else []))

/-- UpdateFeatureSchema.parse. -/
def parseUpdateFeature (r : RawUpdateFeature) : Except (List String) UpdateFeatureData :=
  match updateFeatureIssues r with
  | [] => .ok
      { featureId := r.featureId, title := r.title, version := r.version
        status := r.status, area := r.area }
  | issues => .error issues

/-- Outcome of a feature route call. -/
structure FeatureRouteResult where
  status : Nat
  problem : Option ProblemDetails
  feature : Option Feature
  state : DbState
  deriving Repr, DecidableEq

/-- Overwrite through the truthiness guard the update writes use: a present
non-empty value replaces the stored one. -/
def strOr (o : Option String) (dflt : String) : String :=
  match o with
  | some s => if s == "" then dflt else s
  | none => dflt

/-- PATCH /features/:id: parse (422 on ZodError), load the feature (404),
featureId-conflict check against the project scope (409), then write every
truthy provided field. -/
def patchFeatureRoute (st : DbState) (requestId : Option String) (id : String)
    (raw : RawUpdateFeature) : FeatureRouteResult :=
  match parseUpdateFeature raw with
  | .error issues =>
    { status := 422
      problem := some (routeProblem "validation-failed" "Validation Failed" 422
        "Request body contains invalid data" requestId issues)
      feature := none, state := st }
  | .ok u =>
    match st.features.find? (fun f => f.id == id) with
    | none =>
      { status := 404
        problem := some (routeProblem "not-found" "Feature Not Found" 404
          ("Feature with ID " ++ id ++ " not found") requestId [])
        feature := none, state := st }
    | some existing =>
      let codeConflict :=
        match u.featureId with
        | some f =>
          f != existing.featureId
            && st.features.any
                (fun o => o.projectId == existing.projectId && o.featureId == f)
        | none => false
      if codeConflict then
        { status := 409
          problem := some (routeProblem "conflict" "Feature ID Conflict" 409
            ("Feature " ++ u.featureId.getD "" ++ " already exists in this project")
            requestId [])
          feature := none, state := st }
      else
        let updated : Feature :=
          { existing with
            featureId := strOr u.featureId existing.featureId
            title := strOr u.title existing.title
            version := strOr u.version existing.version
            status := strOr u.status existing.status
            area := strOr u.area existing.area
            updatedAt := (st.nextId : Int) }
        { status := 200, problem := none, feature := some updated
          state := { st with
            features := st.features.map (fun o => if o.id == id then updated else o)
            nextId := st.nextId + 1 } }

/-! ### Sorting used by the list routes (orderBy of findMany) -/

/-- Insert into a sorted list by a Boolean comparator. -/
def insertBy (le : α → α → Bool) (x : α) : List α → List α
  | [] => [x]
  | y :: ys => if le x y then x :: y :: ys else y :: insertBy le x ys

/-- Insertion sort by a Boolean comparator, modeling orderBy. -/
def sortListBy (le : α → α → Bool) : List α → List α
  | [] => []
  | x :: xs => insertBy le x (sortListBy le xs)

/-- A Boolean less-or-equal from an Ordering. -/
def ordLE : Ordering → Bool
  | .gt => false
  | _ => true

/-- String comparison for sort keys. -/
def strLE (a b : String) : Bool :=
  ordLE (compare a b)

/-- Int comparison for sort keys. -/
def intLE (a b : Int) : Bool :=
  decide (a ≤ b)

/-- Nullable-date comparison for sort keys (nulls first). -/
def optIntLE : Option Int → Option Int → Bool
  | none, _ => true
  | some _, none => false
  | some a, some b => decide (a ≤ b)

/-- Apply the sort direction to an ascending comparator. -/
def dirLE (le : α → α → Bool) (sortOrder : String) (a b : α) : Bool :=
  if sortOrder == "asc" then le a b else le b a

/-- Ascending key comparator for the sprints list sortBy field. -/
def sprintKeyLE (sortBy : String) (a b : Sprint) : Bool :=
  if sortBy == "name" then strLE a.name b.name
  else if sortBy == "code" then strLE a.code b.code
  else if sortBy == "startDate" then optIntLE a.startDate b.startDate
  else if sortBy == "createdAt" then intLE a.createdAt b.createdAt
  else intLE a.updatedAt b.updatedAt

/-- Ascending key comparator for the features list sortBy field. -/
def featureKeyLE (sortBy : String) (a b : Feature) : Bool :=
  if sortBy == "title" then strLE a.title b.title
  else if sortBy == "featureId" then strLE a.featureId b.featureId
  else if sortBy == "createdAt" then intLE a.createdAt b.createdAt
  else intLE a.updatedAt b.updatedAt

/-- Ascending key comparator for the documents list sortBy field. -/
def documentKeyLE (sortBy : String) (a b : Document) : Bool :=
  if sortBy == "title" then strLE a.title b.title
  else if sortBy == "createdAt" then intLE a.createdAt b.createdAt
  else intLE a.updatedAt b.updatedAt

/-! ### List queries and list routes

The sprints and features list routes parse their query through a zod schema
(bounds, enums, defaults; coerce.number is modeled by carrying the numeric
value). The documents list route runs no schema at all: it casts the query
object to its declared type, so its fields reach findMany exactly as
provided. -/

/-- A GET /sprints query before validation. -/
structure RawListSprintsQuery where
  projectId : Option String
  status : Option String
  limit : Option Int
  offset : Option Int
  sortBy : Option String
  sortOrder : Option String
  deriving Repr, DecidableEq

/-- A GET /sprints query as ListSprintsQuerySchema types it. -/
structure ListSprintsQuery where
  projectId : Option String
  status : Option String
  limit : Nat
  offset : Nat
  sortBy : String
  sortOrder : String
  deriving Repr, DecidableEq

/-- Issues ListSprintsQuerySchema raises: limit in [1,100] (default 20),
offset at least 0 (default 0), closed enums for status and the sort
fields. -/
def listSprintsQueryIssues (r : RawListSprintsQuery) : List String :=
  (match r.status with
   | none => []
   | some s => if sprintStatuses.contains s then [] else ["Invalid enum value"])
    ++ (match r.limit with
        | none => []
        | some n =>
          (if n < 1 then ["Number must be greater than or equal to 1"] else [])
            ++ (if 100 < n then ["Number must be less than or equal to 100"] else []))
    ++ (match r.offset with
        | none => []
        | some n => if n < 0 then ["Number must be greater than or equal to 0"] else [])
    ++ (match r.sortBy with
        | none => []
        | some s =>
          if ["createdAt", "updatedAt", "name", "code", "startDate"].contains s
          then [] else ["Invalid enum value"])
    ++ (match r.sortOrder with
        | none => []
        | some s => if ["asc", "desc"].contains s then [] else ["Invalid enum value"])

/-- ListSprintsQuerySchema.parse with the defaults applied. -/
def parseListSprintsQuery (r : RawListSprintsQuery) :
    Except (List String) ListSprintsQuery :=
  match listSprintsQueryIssues r with
  | [] => .ok
      { projectId := r.projectId, status := r.status
        limit := (r.limit.getD 20).toNat, offset := (r.offset.getD 0).toNat
        sortBy := r.sortBy.getD "updatedAt", sortOrder := r.sortOrder.getD "desc" }
  | issues => .error issues

/-- A GET /features query before validation. -/
structure RawListFeaturesQuery where
  projectId : Option String
  status : Option String
  area : Option String
  limit : Option Int
  offset : Option Int
  sortBy : Option String
  sortOrder : Option String
  deriving Repr, DecidableEq

/-- A GET /features query as ListFeaturesQuerySchema types it. -/
structure ListFeaturesQuery where
  projectId : Option String
  status : Option String
  area : Option String
  limit : Nat
  offset : Nat
  sortBy : String
  sortOrder : String
  deriving Repr, DecidableEq

/-- Issues ListFeaturesQuerySchema raises. -/
def listFeaturesQueryIssues (r : RawListFeaturesQuery) : List String :=
  (match r.status with
   | none => []
   | some s => if featureStatuses.contains s then [] else ["Invalid enum value"])
    ++ (match r.limit with
        | none => []
        | some n =>
          (if n < 1 then ["Number must be greater than or equal to 1"] else [])
            ++ (if 100 < n then ["Number must be less than or equal to 100"] else []))
    ++ (match r.offset with
        | none => []
        | some n => if n < 0 then ["Number must be greater than or equal to 0"] else [])
    ++ (match r.sortBy with
        | none => []
        | some s =>
          if ["createdAt", "updatedAt", "title", "featureId"].contains s
          then [] else ["Invalid enum value"])
    ++ (match r.sortOrder with
        | none => []
        | some s => if ["asc", "desc"].contains s then [] else ["Invalid enum value"])

/-- ListFeaturesQuerySchema.parse with the defaults applied. -/
def parseListFeaturesQuery (r : RawListFeaturesQuery) :
    Except (List String) ListFeaturesQuery :=
  match listFeaturesQueryIssues r with
  | [] => .ok
      { projectId := r.projectId, status := r.status, area := r.area
        limit := (r.limit.getD 20).toNat, offset := (r.offset.getD 0).toNat
        sortBy := r.sortBy.getD "updatedAt", sortOrder := r.sortOrder.getD "desc" }
  | issues => .error issues

/-- Case-insensitive substring match (the insensitive contains filter). -/
def containsInsensitive (hay needle : String) : Bool :=
  decide (2 ≤ ((lowerStr hay).splitOn (lowerStr needle)).length)

/-- The where clause of the sprints list: each filter only applies when the
query field is truthy. -/
def sprintWhere (q : ListSprintsQuery) (s : Sprint) : Bool :=
  (match q.projectId with | some p => p == "" || s.projectId == p | none => true)
    && (match q.status with | some t => t == "" || s.status == t | none => true)

/-- The where clause of the features list; area is a case-insensitive
substring filter. -/
def featureWhere (q : ListFeaturesQuery) (f : Feature) : Bool :=
  (match q.projectId with | some p => p == "" || f.projectId == p | none => true)
    && (match q.status with | some t => t == "" || f.status == t | none => true)
    && (match q.area with | some a => a == "" || containsInsensitive f.area a | none => true)

/-- Outcome of GET /sprints (the page rows are carried; the projection to
itemCount summaries does not change their number). -/
structure ListSprintsResult where
  status : Nat
  problem : Option ProblemDetails
  sprints : List Sprint
  total : Nat
  limit : Nat
  offset : Nat
  deriving Repr, DecidableEq

/-- GET /sprints: parse the query (422 on ZodError), count the matching
rows, then return the sorted page cut by skip and take. -/
def listSprintsRoute (st : DbState) (requestId : Option String)
    (raw : RawListSprintsQuery) : ListSprintsResult :=
  match parseListSprintsQuery raw with
  | .error issues =>
    { status := 422
      problem := some (routeProblem "validation-failed" "Validation Failed" 422
        "Query parameters contain invalid data" requestId issues)
      sprints := [], total := 0, limit := 0, offset := 0 }
  | .ok q =>
    let matching := st.sprints.filter (sprintWhere q)
    let page :=
      ((sortListBy (dirLE (sprintKeyLE q.sortBy) q.sortOrder) matching).drop
        q.offset).take q.limit
    { status := 200, problem := none, sprints := page
      total := matching.length, limit := q.limit, offset := q.offset }

/-- Outcome of GET /features. -/
structure ListFeaturesResult where
  status : Nat
  problem : Option ProblemDetails
  features : List Feature
  total : Nat
  limit : Nat
  offset : Nat
  deriving Repr, DecidableEq

/-- GET /features: parse the query (422 on ZodError), count the matching
rows, then return the sorted page cut by skip and take. -/
def listFeaturesRoute (st : DbState) (requestId : Option String)
    (raw : RawListFeaturesQuery) : ListFeaturesResult :=
  match parseListFeaturesQuery raw with
  | .error issues =>
    { status := 422
      problem := some (routeProblem "validation-failed" "Validation Failed" 422
        "Query parameters contain invalid data" requestId issues)
      features := [], total := 0, limit := 0, offset := 0 }
  | .ok q =>
    let matching := st.features.filter (featureWhere q)
    let page :=
      ((sortListBy (dirLE (featureKeyLE q.sortBy) q.sortOrder) matching).drop
        q.offset).take q.limit
    { status := 200, problem := none, features := page
      total := matching.length, limit := q.limit, offset := q.offset }

/-- A GET /documents query exactly as it arrives over HTTP: the route casts
request.query with no schema and no coercion, so every provided field is
still a query string. -/
structure RawListDocumentsQuery where
  projectId : Option String
  kind : Option String
  limit : Option String
  offset : Option String
  sortBy : Option String
  sortOrder : Option String
  deriving Repr, DecidableEq

/-- Outcome of GET /documents: the 200 body, or the problem the central
handler builds from a store-side argument-validation failure. -/
structure ListDocumentsResult where
  status : Nat
  problem : Option ProblemDetails
  documents : List Document
  total : Nat
  deriving Repr, DecidableEq

/-- The where clause of the documents list: each filter only applies when
the query field is truthy. -/
def documentWhere (raw : RawListDocumentsQuery) (d : Document) : Bool :=
  (match raw.projectId with | some p => p == "" || d.projectId == p | none => true)
    && (match raw.kind with | some k => k == "" || d.kind == k | none => true)

/-- The scalar fields of the documents table the store accepts as an
orderBy key. -/
def documentOrderFields : List String :=
  ["id", "projectId", "kind", "title", "content", "slug", "createdAt", "updatedAt"]

/-- The store-side argument validation of the documents findMany call: take
and skip must be integers, but the uncoerced query strings never are; the
orderBy entry survives only when its value (sortOrder) is defined, and then
its key — the literal undefined when sortBy is absent — must name a document
field and the value must be asc or desc; a truthy kind filter must belong to
the kind enumeration. Any violation throws a validation error. -/
def documentsFindManyBad (raw : RawListDocumentsQuery) : Bool :=
  raw.limit.isSome || raw.offset.isSome
    || (match raw.sortOrder with
        | some ord =>
          !(documentOrderFields.contains (raw.sortBy.getD "undefined"))
            || !(["asc", "desc"].contains ord)
        | none => false)
    || (match raw.kind with
        | some k => k != "" && !(documentKinds.contains k)
        | none => false)

/-- GET /documents: no validation; the cast query goes straight to findMany.
When the store rejects the arguments (every provided limit or offset does
this, being a string), the thrown validation error reaches the central
handler and is answered as a plain 500; otherwise the whole filtered list is
returned — with no valid paging arguments the route can never return a
partial page — sorted only when an orderBy entry survives. -/
def listDocumentsRoute (st : DbState) (url : String) (requestId : String)
    (raw : RawListDocumentsQuery) : ListDocumentsResult :=
  if documentsFindManyBad raw then
    let p := errorHandler .generic url requestId
    { status := p.status, problem := some p, documents := [], total := 0 }
  else
    let matching := st.documents.filter (documentWhere raw)
    let page :=
      match raw.sortOrder with
      | some ord =>
        sortListBy (dirLE (documentKeyLE (raw.sortBy.getD "undefined")) ord) matching
      | none => matching
    { status := 200, problem := none, documents := page, total := matching.length }

/-! ### Gateway HTTP client (src/mcp-gateway/src/lib/api-client.ts) -/

/-- The per-call options of ApiClient.request. -/
structure GatewayRequestOptions where
  requestId : Option String
  idempotencyKey : Option String
  deriving Repr, DecidableEq

/-- The headers ApiClient.request builds. -/
structure GatewayHeaders where
  contentType : String
  xRequestID : String
  authorization : Option String
  xIdempotencyKey : Option String
  deriving Repr, DecidableEq

/-- Header construction of ApiClient.request (lines 52-66): the request id
falls back to a fresh uuid, supplied here as genUUID; the idempotency key
header is set only when the option carries one. -/
def buildGatewayHeaders (opts : GatewayRequestOptions) (genUUID : String)
    (token : Option String) : GatewayHeaders :=
  { contentType := "application/json"
    xRequestID := opts.requestId.getD genUUID
    authorization := token.map (fun t => "Bearer " ++ t)
    xIdempotencyKey := opts.idempotencyKey }

/-- The headers of the HTTP request handleCreateDocument issues: the tool
forwards the validated requestId and idempotencyKey arguments unchanged into
ApiClient.createDocument. -/
def createDocumentToolHeaders (argRequestId argIdempotencyKey : Option String)
    (genUUID : String) (token : Option String) : GatewayHeaders :=
  buildGatewayHeaders
    { requestId := argRequestId, idempotencyKey := argIdempotencyKey } genUUID token

/-! ### Derived forms used to state properties of the item-insert loop -/

/-- The orders the item-insert loop stores: the submitted order, or the
positional index when the submitted order is 0. -/
def expectedOrders : List SprintItemInput → Nat → List Nat
  | [], _ => []
  | it :: rest, i => (if it.order = 0 then i else it.order) :: expectedOrders rest (i + 1)

/-- The rows the item-insert loop builds when every insert succeeds. -/
def builtRows (sid : String) : List SprintItemInput → Nat → Nat → List SprintItem
  | [], _, _ => []
  | it :: rest, i, n => mkItemRow sid it i n :: builtRows sid rest (i + 1) (n + 1)

/-! ### Concrete fixtures used by witnesses and counterexamples -/

/-- An empty store. -/
def st0 : DbState :=
  { projects := [], documents := [], features := [], sprints := []
    sprintItems := [], nextId := 0 }

/-- A store holding two projects (cuid-shaped ids). -/
def stTwoProjects : DbState :=
  { st0 with
    projects :=
      [ { id := "cproj00000001", name := "P1", createdAt := 0, updatedAt := 0 }
      , { id := "cproj00000002", name := "P2", createdAt := 0, updatedAt := 0 } ]
    nextId := 10 }

/-- A store holding a project and one document with slug test-document. -/
def stOneDocument : DbState :=
  { stTwoProjects with
    documents :=
      [ { id := "cdoc000000001", projectId := "cproj00000001", kind := "FREEFORM"
          title := "Test Document", content := "body", slug := some "test-document"
          createdAt := 1, updatedAt := 1 } ]
    nextId := 20 }

/-- A store holding a project, a sprint and two items of that sprint. -/
def stOneSprint : DbState :=
  { stTwoProjects with
    sprints :=
      [ { id := "cspr000000001", projectId := "cproj00000001", code := "SPR-001"
          name := "Sprint One", status := "PLANNED"
          startDate := some 100, endDate := some 200
          createdAt := 1, updatedAt := 1 } ]
    sprintItems :=
      [ { id := "citem00000001", sprintId := "cspr000000001", text := "old a"
          checked := false, order := 0, createdAt := 1, updatedAt := 1 }
      , { id := "citem00000002", sprintId := "cspr000000001", text := "old b"
          checked := true, order := 1, createdAt := 1, updatedAt := 1 } ]
    nextId := 30 }

/-- A store holding a project and one feature. -/
def stOneFeature : DbState :=
  { stTwoProjects with
    features :=
      [ { id := "cfeat00000001", projectId := "cproj00000001", featureId := "FEAT-001"
          title := "Feature One", version := "0.1.0", status := "PLANNED"
          area := "core", createdAt := 1, updatedAt := 1 } ]
    nextId := 40 }

/-- A store holding a project and two documents of that project. -/
def stTwoDocuments : DbState :=
  { stTwoProjects with
    documents :=
      [ { id := "cdoc000000001", projectId := "cproj00000001", kind := "FREEFORM"
          title := "Test Document", content := "body", slug := some "test-document"
          createdAt := 1, updatedAt := 1 }
      , { id := "cdoc000000003", projectId := "cproj00000001", kind := "FREEFORM"
          title := "Other Document", content := "body", slug := some "other-document"
          createdAt := 2, updatedAt := 2 } ]
    nextId := 22 }

/-- A store holding a project and a document whose slug is the word
ratelimit. -/
def stRatelimitDoc : DbState :=
  { stTwoProjects with
    documents :=
      [ { id := "cdoc000000002", projectId := "cproj00000001", kind := "FREEFORM"
          title := "RateLimit", content := "body", slug := some "ratelimit"
          createdAt := 1, updatedAt := 1 } ]
    nextId := 21 }

/-! ### Helper lemmas -/

/-- Insertion grows the length by one. -/
theorem insertBy_length {α : Type} (le : α → α → Bool) (x : α) (l : List α) :
    (insertBy le x l).length = l.length + 1 := by
  induction l with
  | nil => rfl
  | cons y ys ih =>
    simp only [insertBy]
    split
    · simp
    · simp [ih]

/-- Sorting preserves length. -/
theorem sortListBy_length {α : Type} (le : α → α → Bool) (l : List α) :
    (sortListBy le l).length = l.length := by
  induction l with
  | nil => rfl
  | cons x xs ih => simp [sortListBy, insertBy_length, ih]

/-- When every insert succeeds, the item loop returns exactly the rows of
builtRows and advances the id counter over them. -/
theorem createItemsLoop_ok_eq (ok : SprintItem → Bool) (sid : String)
    (items : List SprintItemInput) (i n : Nat) (rows : List SprintItem) (m : Nat)
    (h : createItemsLoop ok sid items i n = .ok (rows, m)) :
    rows = builtRows sid items i n ∧ m = n + items.length := by
  induction items generalizing i n rows m with
  | nil =>
    simp only [createItemsLoop] at h
    cases h
    simp [builtRows]
  | cons it rest ih =>
    simp only [createItemsLoop] at h
    cases hok : ok (mkItemRow sid it i n) with
    | false =>
      rw [hok] at h
      simp at h
    | true =>
      rw [hok] at h
      simp only [if_true] at h
      cases hrec : createItemsLoop ok sid rest (i + 1) (n + 1) with
      | ok p =>
        rw [hrec] at h
        obtain ⟨rows1, m1⟩ := p
        cases h
        have hrest := ih (i + 1) (n + 1) rows1 _ hrec
        refine ⟨by simp [builtRows, hrest.1], ?_⟩
        have h2 := hrest.2
        simp only [List.length_cons]
        omega
      | error e =>
        rw [hrec] at h
        cases h

/-- Every row built by the loop belongs to the given sprint. -/
theorem builtRows_sprintId (sid : String) (items : List SprintItemInput) (i n : Nat) :
    (builtRows sid items i n).all (fun r => r.sprintId == sid) = true := by
  induction items generalizing i n with
  | nil => rfl
  | cons it rest ih => simp [builtRows, mkItemRow, ih]

/-- The orders of the built rows follow the or-else-index rule. -/
theorem builtRows_orders (sid : String) (items : List SprintItemInput) (i n : Nat) :
    (builtRows sid items i n).map (fun r => r.order) = expectedOrders items i := by
  induction items generalizing i n with
  | nil => rfl
  | cons it rest ih => simp [builtRows, expectedOrders, mkItemRow, ih]

/-- Filtering the built rows by their own sprint id keeps all of them. -/
theorem builtRows_filter_self (sid : String) (items : List SprintItemInput) (i n : Nat) :
    (builtRows sid items i n).filter (fun r => r.sprintId == sid) = builtRows sid items i n := by
  induction items generalizing i n with
  | nil => rfl
  | cons it rest ih =>
    simp only [builtRows, List.filter_cons]
    have hall := builtRows_sprintId sid rest (i + 1) (n + 1)
    simp [mkItemRow, List.filter_eq_self]
    intro a ha
    have := List.all_eq_true.mp hall a ha
    simpa using this

/-- Whatever branch the custom-error case of the central handler takes, the
resulting status is 429, the raised statusCode, or 500. -/
theorem errorHandler_apiError_status_ne (name : String) (sc : Nat)
    (code : Option String) (msg : String) (det : List String) (url rid : String)
    (h400 : sc ≠ 400) (h422 : sc ≠ 422) :
    (errorHandler (.apiError name sc code msg det) url rid).status ≠ 400
      ∧ (errorHandler (.apiError name sc code msg det) url rid).status ≠ 422 := by
  simp only [errorHandler]
  split
  · exact ⟨by simp, by simp⟩
  · split
    · exact ⟨h400, h422⟩
    · exact ⟨by simp, by simp⟩

/-! ### Claim C9: gateway request and idempotency headers -/

/-- C9 counterexample: a gateway create-document tool call whose caller
supplied neither header option carries a generated X-Request-ID but no
X-Idempotency-Key header at all, contradicting the claim that the gateway
generates the idempotency key when absent. -/
theorem c9_counterexample :
    (createDocumentToolHeaders none none "uuid-1" none).xRequestID = "uuid-1"
      ∧ (createDocumentToolHeaders none none "uuid-1" none).xIdempotencyKey = none := by
  decide

/-- C9 (amended): every gateway request carries X-Request-ID, generated by
the client when the caller supplied none; X-Idempotency-Key is attached to a
create request exactly when the caller supplied one — the gateway forwards
it but never generates it. -/
theorem c9_gateway_headers (reqId idemKey : Option String) (gen : String)
    (token : Option String) :
    (buildGatewayHeaders { requestId := reqId, idempotencyKey := idemKey } gen
        token).xRequestID = reqId.getD gen
      ∧ (buildGatewayHeaders { requestId := reqId, idempotencyKey := idemKey } gen
          token).xIdempotencyKey = idemKey
      ∧ createDocumentToolHeaders reqId idemKey gen token
          = buildGatewayHeaders { requestId := reqId, idempotencyKey := idemKey } gen token := by
  exact ⟨rfl, rfl, rfl⟩

/-! ### Claim C1: schema-validation error mapping -/

/-- C1 counterexample: a POST /sprints body failing schema validation is
answered by the sprint route itself with status 422 and title Validation
Failed, not with the canonical 400 Validation Error problem the claim
requires of every entity route. -/
theorem c1_counterexample :
    (createSprintRoute st0 (some "req1") (fun _ => true)
        { projectId := some "p1", code := some "SPR-001", name := some ""
          status := none, startDate := none, endDate := none, items := none }).status = 422
      ∧ ((createSprintRoute st0 (some "req1") (fun _ => true)
          { projectId := some "p1", code := some "SPR-001", name := some ""
            status := none, startDate := none, endDate := none, items := none }).problem.map
            ProblemDetails.title) = some "Validation Failed"
      ∧ ¬((createSprintRoute st0 (some "req1") (fun _ => true)
            { projectId := some "p1", code := some "SPR-001", name := some ""
              status := none, startDate := none, endDate := none, items := none }).status = 400
          ∧ ((createSprintRoute st0 (some "req1") (fun _ => true)
              { projectId := some "p1", code := some "SPR-001", name := some ""
                status := none, startDate := none, endDate := none, items := none }).problem.map
                ProblemDetails.title) = some "Validation Error") := by
  decide

/-- C1 (amended): schema validation failures that reach the central
errorHandler are mapped to 400 Validation Error, but routes that catch the
failure locally answer with their own shapes: the sprint route replies 422
Validation Failed, and the document create route replies a literal 400 body
of error plus details that is not the problem-detail shape. -/
theorem c1_schema_error_mapping (issues : List String) (url rid : String)
    (st : DbState) (reqId : Option String) (ok : SprintItem → Bool)
    (rawS : RawCreateSprint) (issS : List String)
    (hS : parseCreateSprint rawS = .error issS)
    (rawD : RawCreateDocument) (issD : List String)
    (hD : parseCreateDocument rawD = .error issD) :
    (errorHandler (.zodError issues) url rid).status = 400
      ∧ (errorHandler (.zodError issues) url rid).title = "Validation Error"
      ∧ (createSprintRoute st reqId ok rawS).status = 422
      ∧ ((createSprintRoute st reqId ok rawS).problem.map ProblemDetails.title)
          = some "Validation Failed"
      ∧ (createDocumentRoute st url rid rawD).status = 400
      ∧ (createDocumentRoute st url rid rawD).body = .invalid "Validation failed" issD := by
  refine ⟨rfl, rfl, ?_, ?_, ?_, ?_⟩ <;>
    simp [createSprintRoute, createDocumentRoute, hS, hD, routeProblem]

/-- C1 witness: the amended mapping evaluated on an invalid sprint body and
an invalid document body. -/
theorem c1_schema_error_mapping_witness :
    (errorHandler (.zodError []) "/v1/sprints" "r1").status = 400
      ∧ (errorHandler (.zodError []) "/v1/sprints" "r1").title = "Validation Error"
      ∧ (createSprintRoute st0 (some "r1") (fun _ => true)
          { projectId := some "p1", code := some "SPR-001", name := some ""
            status := none, startDate := none, endDate := none, items := none }).status = 422
      ∧ ((createSprintRoute st0 (some "r1") (fun _ => true)
          { projectId := some "p1", code := some "SPR-001", name := some ""
            status := none, startDate := none, endDate := none, items := none }).problem.map
            ProblemDetails.title) = some "Validation Failed"
      ∧ (createDocumentRoute st0 "/v1/sprints" "r1"
          { projectId := some "cproj00000001", kind := some "FREEFORM"
            title := some "", content := some "x", slug := none }).status = 400
      ∧ (createDocumentRoute st0 "/v1/sprints" "r1"
          { projectId := some "cproj00000001", kind := some "FREEFORM"
            title := some "", content := some "x", slug := none }).body
          = .invalid "Validation failed" ["Title is required"] :=
  c1_schema_error_mapping [] "/v1/sprints" "r1" st0 (some "r1") (fun _ => true)
    { projectId := some "p1", code := some "SPR-001", name := some ""
      status := none, startDate := none, endDate := none, items := none }
    ["Name is required"] rfl
    { projectId := some "cproj00000001", kind := some "FREEFORM"
      title := some "", content := some "x", slug := none }
    ["Title is required"] rfl

/-! ### Claim C2: slug generation from the title -/

/-- C2 counterexample: for the title Test&Document the stored slug is
testdocument (the ampersand is deleted), while the transformation the claim
describes (non-alphanumerics as hyphen separators) yields test-document. -/
theorem c2_counterexample :
    (createDocumentRoute stTwoProjects "/v1/documents" "r2"
        { projectId := some "cproj00000001", kind := some "FREEFORM"
          title := some "Test&Document", content := some "body", slug := none }).status = 201
      ∧ (match (createDocumentRoute stTwoProjects "/v1/documents" "r2"
            { projectId := some "cproj00000001", kind := some "FREEFORM"
              title := some "Test&Document", content := some "body", slug := none }).body with
          | .doc d => d.slug
          | _ => none) = some "testdocument"
      ∧ slugSpecC2 "Test&Document" = "test-document"
      ∧ (some "testdocument" : Option String) ≠ some (slugSpecC2 "Test&Document") := by
  decide

/-- C2 (amended): a valid document creation input without an explicit slug
stores generateSlug of the title: lower-cased, characters outside lowercase
alphanumerics, whitespace and hyphens removed (so punctuation is deleted
rather than turned into a separator), whitespace runs replaced by single
hyphens, hyphen runs collapsed, and the leading/trailing hyphen stripped; on
the spec examples this yields test-document. -/
theorem c2_slug_generation (st : DbState) (url rid : String)
    (raw : RawCreateDocument) (data : CreateDocumentData)
    (hparse : parseCreateDocument raw = .ok data)
    (hslug : data.slug = none)
    (hproj : st.projects.any (fun p => p.id == data.projectId) = true)
    (hfree : st.documents.any
        (fun d => d.projectId == data.projectId
          && d.slug == some (generateSlug data.title)) = false) :
    (createDocumentRoute st url rid raw).status = 201
      ∧ (match (createDocumentRoute st url rid raw).body with
          | .doc d => d.slug
          | _ => none) = some (generateSlug data.title)
      ∧ generateSlug "Test & Document!" = "test-document"
      ∧ generateSlug "-Test Document-" = "test-document" := by
  refine ⟨?_, ?_, by decide, by decide⟩ <;>
    simp [createDocumentRoute, hparse, hslug, hproj, hfree]

/-- C2 witness: the amended slug derivation evaluated on the first spec
example without an explicit slug. -/
theorem c2_slug_generation_witness :
    (createDocumentRoute stTwoProjects "/v1/documents" "r3"
        { projectId := some "cproj00000001", kind := some "FREEFORM"
          title := some "Test & Document!", content := some "body", slug := none }).status = 201
      ∧ (match (createDocumentRoute stTwoProjects "/v1/documents" "r3"
            { projectId := some "cproj00000001", kind := some "FREEFORM"
              title := some "Test & Document!", content := some "body", slug := none }).body with
          | .doc d => d.slug
          | _ => none) = some (generateSlug "Test & Document!")
      ∧ generateSlug "Test & Document!" = "test-document"
      ∧ generateSlug "-Test Document-" = "test-document" :=
  c2_slug_generation stTwoProjects "/v1/documents" "r3"
    { projectId := some "cproj00000001", kind := some "FREEFORM"
      title := some "Test & Document!", content := some "body", slug := none }
    { projectId := "cproj00000001", kind := "FREEFORM"
      title := "Test & Document!", content := "body", slug := none }
    rfl rfl (by decide) (by decide)

/-! ### Claim C6: per-project slug uniqueness -/

/-- C6 counterexample: a duplicate slug in the same project is not always
answered with 409 Conflict: when the slug is the word ratelimit the conflict
message matches the rate-limit regex of the central handler, which answers
429 Rate Limit Exceeded instead. -/
theorem c6_counterexample :
    (createDocumentRoute stRatelimitDoc "/v1/documents" "r6"
        { projectId := some "cproj00000001", kind := some "FREEFORM"
          title := some "Second", content := some "b", slug := some "ratelimit" }).status = 429
      ∧ (match (createDocumentRoute stRatelimitDoc "/v1/documents" "r6"
            { projectId := some "cproj00000001", kind := some "FREEFORM"
              title := some "Second", content := some "b", slug := some "ratelimit" }).body with
          | .problem p => some p.title
          | _ => none) = some "Rate Limit Exceeded"
      ∧ (createDocumentRoute stRatelimitDoc "/v1/documents" "r6"
          { projectId := some "cproj00000001", kind := some "FREEFORM"
            title := some "Second", content := some "b", slug := some "ratelimit" }).status ≠ 409 := by
  decide

/-- C6 (amended): document slug uniqueness on create is enforced per
(project, slug), never globally: a duplicate inside the same project is
rejected with the 409 Conflict problem (as long as the conflict message does
not itself match the rate-limit regex, which would misclassify it as 429),
while the same slug in a different project, or any slug free in its own
project, is created. -/
theorem c6_slug_unique_per_project (st : DbState) (url rid : String)
    (raw : RawCreateDocument) (data : CreateDocumentData)
    (hparse : parseCreateDocument raw = .ok data)
    (hproj : st.projects.any (fun p => p.id == data.projectId) = true)
    (hmsg : msgMentionsRateLimit
        ("Document with slug "
          ++ (match data.slug with | some s => s | none => generateSlug data.title)
          ++ " already exists in this project") = false) :
    (st.documents.any (fun d => d.projectId == data.projectId
        && d.slug == some (match data.slug with
                           | some s => s
                           | none => generateSlug data.title)) = true →
      (createDocumentRoute st url rid raw).status = 409
        ∧ (match (createDocumentRoute st url rid raw).body with
            | .problem p => some p.type
            | _ => none) = some "https://1plan.dev/errors/conflict"
        ∧ (createDocumentRoute st url rid raw).state = st)
    ∧ (st.documents.any (fun d => d.projectId == data.projectId
        && d.slug == some (match data.slug with
                           | some s => s
                           | none => generateSlug data.title)) = false →
      (createDocumentRoute st url rid raw).status = 201
        ∧ (createDocumentRoute st url rid raw).state.documents.length
            = st.documents.length + 1) := by
  have hlow : lowerStr "CONFLICT" = "conflict" := by decide
  constructor
  · intro hdup
    refine ⟨?_, ?_, ?_⟩ <;>
      simp [createDocumentRoute, hparse, hproj, hdup, errorHandler, hmsg, hlow]
  · intro hfree
    refine ⟨?_, ?_⟩ <;>
      simp [createDocumentRoute, hparse, hproj, hfree]

/-- C6 witness: with one stored document of slug test-document in the first
project, creating the same slug there conflicts with 409 while creating it
in the second project succeeds. -/
theorem c6_slug_unique_per_project_witness :
    ((createDocumentRoute stOneDocument "/v1/documents" "r7"
        { projectId := some "cproj00000001", kind := some "FREEFORM"
          title := some "Another", content := some "b", slug := some "test-document" }).status = 409
      ∧ (match (createDocumentRoute stOneDocument "/v1/documents" "r7"
            { projectId := some "cproj00000001", kind := some "FREEFORM"
              title := some "Another", content := some "b", slug := some "test-document" }).body with
          | .problem p => some p.type
          | _ => none) = some "https://1plan.dev/errors/conflict"
      ∧ (createDocumentRoute stOneDocument "/v1/documents" "r7"
          { projectId := some "cproj00000001", kind := some "FREEFORM"
            title := some "Another", content := some "b", slug := some "test-document" }).state
          = stOneDocument)
    ∧ ((createDocumentRoute stOneDocument "/v1/documents" "r8"
        { projectId := some "cproj00000002", kind := some "FREEFORM"
          title := some "Another", content := some "b", slug := some "test-document" }).status = 201
      ∧ (createDocumentRoute stOneDocument "/v1/documents" "r8"
          { projectId := some "cproj00000002", kind := some "FREEFORM"
            title := some "Another", content := some "b", slug := some "test-document" }).state.documents.length
          = stOneDocument.documents.length + 1) :=
  ⟨(c6_slug_unique_per_project stOneDocument "/v1/documents" "r7"
      { projectId := some "cproj00000001", kind := some "FREEFORM"
        title := some "Another", content := some "b", slug := some "test-document" }
      { projectId := "cproj00000001", kind := "FREEFORM"
        title := "Another", content := "b", slug := some "test-document" }
      rfl (by decide) (by decide)).1 (by decide),
   (c6_slug_unique_per_project stOneDocument "/v1/documents" "r8"
      { projectId := some "cproj00000002", kind := some "FREEFORM"
        title := some "Another", content := some "b", slug := some "test-document" }
      { projectId := "cproj00000002", kind := "FREEFORM"
        title := "Another", content := "b", slug := some "test-document" }
      rfl (by decide) (by decide)).2 (by decide)⟩

/-! ### Claim C7: partial-update validation -/

/-- C7 counterexample: a PATCH /documents/:id body whose title is the empty
string violates the per-field create rule (updateDocumentSchema rejects it),
yet the route persists it with status 200 instead of answering a validation
failure. -/
theorem c7_counterexample :
    updateDocumentIssues { kind := none, title := some "", content := none, slug := none } ≠ []
      ∧ (patchDocumentRoute stOneDocument "/v1/documents/cdoc000000001" "r9"
          "cdoc000000001"
          { kind := none, title := some "", content := none, slug := none }).status = 200
      ∧ (match (patchDocumentRoute stOneDocument "/v1/documents/cdoc000000001" "r9"
            "cdoc000000001"
            { kind := none, title := some "", content := none, slug := none }).body with
          | .doc d => some d.title
          | _ => none) = some ""
      ∧ ((patchDocumentRoute stOneDocument "/v1/documents/cdoc000000001" "r9"
          "cdoc000000001"
          { kind := none, title := some "", content := none, slug := none }).state.documents.map
            Document.title) = [""] := by
  decide

/-- C7 (amended): partial updates on features and sprints validate each
provided field with the same per-field rules as on create and reject a
malformed field with a 422 validation failure before persisting anything;
the document partial update runs no schema at all, so it never produces a
validation failure and a malformed provided field is persisted. -/
theorem c7_partial_update_validation (st : DbState) (reqId : Option String)
    (ok : SprintItem → Bool) (url rid id : String)
    (rawF : RawUpdateFeature) (issF : List String)
    (hF : parseUpdateFeature rawF = .error issF)
    (rawS : RawUpdateSprint) (issS : List String)
    (hSp : parseUpdateSprint rawS = .error issS)
    (rawD : RawUpdateDocument) :
    ((patchFeatureRoute st reqId id rawF).status = 422
      ∧ (patchFeatureRoute st reqId id rawF).state = st)
    ∧ ((patchSprintRoute st reqId ok id rawS).status = 422
      ∧ (patchSprintRoute st reqId ok id rawS).state = st)
    ∧ ((patchDocumentRoute st url rid id rawD).status ≠ 400
      ∧ (patchDocumentRoute st url rid id rawD).status ≠ 422) := by
  refine ⟨⟨?_, ?_⟩, ⟨?_, ?_⟩, ?_⟩
  · simp [patchFeatureRoute, hF]
  · simp [patchFeatureRoute, hF]
  · simp [patchSprintRoute, hSp]
  · simp [patchSprintRoute, hSp]
  · cases hfind : st.documents.find? (fun d => d.id == id) with
    | none =>
      simp only [patchDocumentRoute, hfind]
      exact errorHandler_apiError_status_ne "NotFoundError" 404 (some "NOT_FOUND")
        "Document not found" [] url rid (by decide) (by decide)
    | some d =>
      simp only [patchDocumentRoute, hfind]
      split <;> split
      all_goals
        first
          | exact errorHandler_apiError_status_ne "ConflictError" 409 (some "CONFLICT")
              _ [] url rid (by decide) (by decide)
          | exact ⟨by simp, by simp⟩

/-- C7 witness: the amended behavior evaluated on an empty-title feature
update, an empty-name sprint update, and an arbitrary document update. -/
theorem c7_partial_update_validation_witness :
    ((patchFeatureRoute st0 (some "r10") "x"
        { featureId := none, title := some "", version := none
          status := none, area := none }).status = 422
      ∧ (patchFeatureRoute st0 (some "r10") "x"
          { featureId := none, title := some "", version := none
            status := none, area := none }).state = st0)
    ∧ ((patchSprintRoute st0 (some "r10") (fun _ => true) "x"
        { code := none, name := some "", status := none
          startDate := none, endDate := none, items := none }).status = 422
      ∧ (patchSprintRoute st0 (some "r10") (fun _ => true) "x"
          { code := none, name := some "", status := none
            startDate := none, endDate := none, items := none }).state = st0)
    ∧ ((patchDocumentRoute st0 "/u" "r10" "x"
        { kind := none, title := none, content := none, slug := none }).status ≠ 400
      ∧ (patchDocumentRoute st0 "/u" "r10" "x"
          { kind := none, title := none, content := none, slug := none }).status ≠ 422) :=
  c7_partial_update_validation st0 (some "r10") (fun _ => true) "/u" "r10" "x"
    { featureId := none, title := some "", version := none
      status := none, area := none }
    ["Title is required"] rfl
    { code := none, name := some "", status := none
      startDate := none, endDate := none, items := none }
    ["Name is required"] rfl
    { kind := none, title := none, content := none, slug := none }

/-! ### Claim C8: pagination bounds on list queries -/

/-- A sprints list query whose collected issues are nonempty is rejected
with the 422 validation-failure reply. -/
theorem listSprintsRoute_invalid (st : DbState) (reqId : Option String)
    (raw : RawListSprintsQuery) (h : listSprintsQueryIssues raw ≠ []) :
    (listSprintsRoute st reqId raw).status = 422
      ∧ ((listSprintsRoute st reqId raw).problem.map ProblemDetails.title)
          = some "Validation Failed" := by
  cases hiss : listSprintsQueryIssues raw with
  | nil => exact absurd hiss h
  | cons a as =>
    constructor <;> simp [listSprintsRoute, parseListSprintsQuery, hiss, routeProblem]

/-- C8 counterexample: the documents list route never validates its query: a
limit of 0, outside the claimed [1,100] bound, reaches the store as the
uncoerced query string, whose argument validation throws — the route answers
a plain 500 Internal Server Error through the central handler, not a
validation failure. -/
theorem c8_counterexample :
    (listDocumentsRoute stOneDocument "/v1/documents" "r16"
        { projectId := none, kind := none, limit := some "0", offset := none
          sortBy := none, sortOrder := none }).status = 500
      ∧ ((listDocumentsRoute stOneDocument "/v1/documents" "r16"
          { projectId := none, kind := none, limit := some "0", offset := none
            sortBy := none, sortOrder := none }).problem.map ProblemDetails.title)
          = some "Internal Server Error"
      ∧ ¬((listDocumentsRoute stOneDocument "/v1/documents" "r16"
            { projectId := none, kind := none, limit := some "0", offset := none
              sortBy := none, sortOrder := none }).status = 400
          ∨ (listDocumentsRoute stOneDocument "/v1/documents" "r16"
              { projectId := none, kind := none, limit := some "0", offset := none
                sortBy := none, sortOrder := none }).status = 422) := by
  decide

/-- C8 (amended): the sprint (and feature) list queries reject a limit
outside [1,100] or a negative offset with a 422 validation failure, and when
the query is valid the normalized limit and offset (defaults 20 and 0) are
exactly the take and skip applied to the page; the documents list route
validates nothing — any provided limit or offset, in range or not, reaches
the store as an uncoerced string and is answered as a 500 Internal Server
Error, and no documents query is ever rejected with a validation failure. -/
theorem c8_pagination_bounds (st : DbState) (reqId : Option String)
    (url rid : String)
    (rawA : RawListSprintsQuery) (nA : Int) (hA : rawA.limit = some nA)
    (hAbad : nA < 1 ∨ 100 < nA)
    (rawB : RawListSprintsQuery) (oB : Int) (hB : rawB.offset = some oB)
    (hBbad : oB < 0)
    (rawC : RawListSprintsQuery) (hC : listSprintsQueryIssues rawC = [])
    (rawD : RawListDocumentsQuery) (sD : String) (hD : rawD.limit = some sD)
    (rawD2 : RawListDocumentsQuery) :
    ((listSprintsRoute st reqId rawA).status = 422
      ∧ ((listSprintsRoute st reqId rawA).problem.map ProblemDetails.title)
          = some "Validation Failed")
    ∧ ((listSprintsRoute st reqId rawB).status = 422)
    ∧ ((listSprintsRoute st reqId rawC).status = 200
      ∧ (listSprintsRoute st reqId rawC).limit = (rawC.limit.getD 20).toNat
      ∧ (listSprintsRoute st reqId rawC).offset = (rawC.offset.getD 0).toNat
      ∧ (listSprintsRoute st reqId rawC).sprints
          = ((sortListBy
                (dirLE (sprintKeyLE (rawC.sortBy.getD "updatedAt")) (rawC.sortOrder.getD "desc"))
                (st.sprints.filter (sprintWhere
                  { projectId := rawC.projectId, status := rawC.status
                    limit := (rawC.limit.getD 20).toNat, offset := (rawC.offset.getD 0).toNat
                    sortBy := rawC.sortBy.getD "updatedAt"
                    sortOrder := rawC.sortOrder.getD "desc" }))).drop
              (rawC.offset.getD 0).toNat).take (rawC.limit.getD 20).toNat)
    ∧ ((listDocumentsRoute st url rid rawD).status = 500
      ∧ ((listDocumentsRoute st url rid rawD).problem.map ProblemDetails.title)
          = some "Internal Server Error")
    ∧ ((listDocumentsRoute st url rid rawD2).status = 200
        ∨ (listDocumentsRoute st url rid rawD2).status = 500) := by
  refine ⟨?_, ?_, ?_, ?_, ?_⟩
  · apply listSprintsRoute_invalid
    intro hnil
    simp only [listSprintsQueryIssues, hA] at hnil
    rcases hAbad with h1 | h1
    · rw [if_pos h1] at hnil
      simp at hnil
    · rw [if_neg (by omega), if_pos h1] at hnil
      simp at hnil
  · refine (listSprintsRoute_invalid st reqId rawB ?_).1
    intro hnil
    simp only [listSprintsQueryIssues, hB] at hnil
    rw [if_pos hBbad] at hnil
    simp at hnil
  · refine ⟨?_, ?_, ?_, ?_⟩ <;>
      simp [listSprintsRoute, parseListSprintsQuery, hC]
  · have hbad : documentsFindManyBad rawD = true := by
      simp [documentsFindManyBad, hD]
    constructor <;> simp [listDocumentsRoute, hbad, errorHandler]
  · by_cases hbad : documentsFindManyBad rawD2 = true
    · right
      simp [listDocumentsRoute, hbad, errorHandler]
    · left
      simp only [Bool.not_eq_true] at hbad
      simp [listDocumentsRoute, hbad]

/-- C8 witness: the amended bounds evaluated on a zero limit, a negative
offset, an empty (all-defaults) sprint query, a documents query with a
string limit, and an empty documents query. -/
theorem c8_pagination_bounds_witness :
    ((listSprintsRoute st0 (some "r11")
        { projectId := none, status := none, limit := some 0, offset := none
          sortBy := none, sortOrder := none }).status = 422
      ∧ ((listSprintsRoute st0 (some "r11")
          { projectId := none, status := none, limit := some 0, offset := none
            sortBy := none, sortOrder := none }).problem.map ProblemDetails.title)
          = some "Validation Failed")
    ∧ ((listSprintsRoute st0 (some "r11")
        { projectId := none, status := none, limit := none, offset := some (-1)
          sortBy := none, sortOrder := none }).status = 422)
    ∧ ((listSprintsRoute st0 (some "r11")
        { projectId := none, status := none, limit := none, offset := none
          sortBy := none, sortOrder := none }).status = 200
      ∧ (listSprintsRoute st0 (some "r11")
          { projectId := none, status := none, limit := none, offset := none
            sortBy := none, sortOrder := none }).limit
          = ((none : Option Int).getD 20).toNat
      ∧ (listSprintsRoute st0 (some "r11")
          { projectId := none, status := none, limit := none, offset := none
            sortBy := none, sortOrder := none }).offset
          = ((none : Option Int).getD 0).toNat
      ∧ (listSprintsRoute st0 (some "r11")
          { projectId := none, status := none, limit := none, offset := none
            sortBy := none, sortOrder := none }).sprints
          = ((sortListBy
                (dirLE (sprintKeyLE ((none : Option String).getD "updatedAt"))
                  ((none : Option String).getD "desc"))
                (st0.sprints.filter (sprintWhere
                  { projectId := none, status := none
                    limit := ((none : Option Int).getD 20).toNat
                    offset := ((none : Option Int).getD 0).toNat
                    sortBy := (none : Option String).getD "updatedAt"
                    sortOrder := (none : Option String).getD "desc" }))).drop
              ((none : Option Int).getD 0).toNat).take ((none : Option Int).getD 20).toNat)
    ∧ ((listDocumentsRoute st0 "/v1/documents" "r11"
        { projectId := none, kind := none, limit := some "20", offset := none
          sortBy := none, sortOrder := none }).status = 500
      ∧ ((listDocumentsRoute st0 "/v1/documents" "r11"
          { projectId := none, kind := none, limit := some "20", offset := none
            sortBy := none, sortOrder := none }).problem.map ProblemDetails.title)
          = some "Internal Server Error")
    ∧ ((listDocumentsRoute st0 "/v1/documents" "r11"
        { projectId := none, kind := none, limit := none, offset := none
          sortBy := none, sortOrder := none }).status = 200
        ∨ (listDocumentsRoute st0 "/v1/documents" "r11"
            { projectId := none, kind := none, limit := none, offset := none
              sortBy := none, sortOrder := none }).status = 500) :=
  c8_pagination_bounds st0 (some "r11") "/v1/documents" "r11"
    { projectId := none, status := none, limit := some 0, offset := none
      sortBy := none, sortOrder := none }
    0 rfl (Or.inl (by decide))
    { projectId := none, status := none, limit := none, offset := some (-1)
      sortBy := none, sortOrder := none }
    (-1) rfl (by decide)
    { projectId := none, status := none, limit := none, offset := none
      sortBy := none, sortOrder := none }
    rfl
    { projectId := none, kind := none, limit := some "20", offset := none
      sortBy := none, sortOrder := none }
    "20" rfl
    { projectId := none, kind := none, limit := none, offset := none
      sortBy := none, sortOrder := none }

/-! ### Claim C4: list total and page length -/

/-- C4 counterexample: on a store of two documents, the documents list with
limit 1 does not return a page of min(1, 2 - 0) = 1 rows with total 2: the
uncoerced string limit fails the store argument validation and the route
answers 500 with no page at all. -/
theorem c4_counterexample :
    (listDocumentsRoute stTwoDocuments "/v1/documents" "r17"
        { projectId := none, kind := none, limit := some "1", offset := some "0"
          sortBy := none, sortOrder := none }).status = 500
      ∧ ((listDocumentsRoute stTwoDocuments "/v1/documents" "r17"
          { projectId := none, kind := none, limit := some "1", offset := some "0"
            sortBy := none, sortOrder := none }).problem.map ProblemDetails.title)
          = some "Internal Server Error"
      ∧ (stTwoDocuments.documents.filter (documentWhere
          { projectId := none, kind := none, limit := some "1", offset := some "0"
            sortBy := none, sortOrder := none })).length = 2
      ∧ (listDocumentsRoute stTwoDocuments "/v1/documents" "r17"
          { projectId := none, kind := none, limit := some "1", offset := some "0"
            sortBy := none, sortOrder := none }).documents.length = 0
      ∧ ¬((listDocumentsRoute stTwoDocuments "/v1/documents" "r17"
            { projectId := none, kind := none, limit := some "1", offset := some "0"
              sortBy := none, sortOrder := none }).documents.length
          = min 1 ((stTwoDocuments.documents.filter (documentWhere
              { projectId := none, kind := none, limit := some "1", offset := some "0"
                sortBy := none, sortOrder := none })).length - 0)) := by
  decide

/-- C4 (amended): on the sprint and feature list routes the returned total
is the full count of rows matching the filter, independent of limit and
offset, and the page holds exactly min limit (total - offset) rows, hence 0
when the offset reaches past the total; the documents list route cannot
satisfy this law: any provided limit or offset reaches the store as an
uncoerced string and the route answers 500 with no page, while with limit
and offset absent (and the query otherwise acceptable to the store) it
returns the entire filtered list, with total equal to its length. -/
theorem c4_list_pagination (st : DbState) (reqId : Option String)
    (url rid : String)
    (rawS : RawListSprintsQuery) (qS : ListSprintsQuery)
    (hS : parseListSprintsQuery rawS = .ok qS)
    (rawF : RawListFeaturesQuery) (qF : ListFeaturesQuery)
    (hF : parseListFeaturesQuery rawF = .ok qF)
    (rawD : RawListDocumentsQuery) (sD : String) (hDlim : rawD.limit = some sD)
    (rawD2 : RawListDocumentsQuery) (hD2 : documentsFindManyBad rawD2 = false) :
    ((listSprintsRoute st reqId rawS).total
        = (st.sprints.filter (sprintWhere qS)).length
      ∧ (listSprintsRoute st reqId rawS).sprints.length
          = min qS.limit ((listSprintsRoute st reqId rawS).total - qS.offset))
    ∧ ((listFeaturesRoute st reqId rawF).total
        = (st.features.filter (featureWhere qF)).length
      ∧ (listFeaturesRoute st reqId rawF).features.length
          = min qF.limit ((listFeaturesRoute st reqId rawF).total - qF.offset))
    ∧ ((listDocumentsRoute st url rid rawD).status = 500
      ∧ (listDocumentsRoute st url rid rawD).documents = [])
    ∧ ((listDocumentsRoute st url rid rawD2).status = 200
      ∧ (listDocumentsRoute st url rid rawD2).total
          = (st.documents.filter (documentWhere rawD2)).length
      ∧ (listDocumentsRoute st url rid rawD2).documents.length
          = (listDocumentsRoute st url rid rawD2).total) := by
  have hbad : documentsFindManyBad rawD = true := by
    simp [documentsFindManyBad, hDlim]
  refine ⟨⟨?_, ?_⟩, ⟨?_, ?_⟩, ⟨?_, ?_⟩, ⟨?_, ?_, ?_⟩⟩
  · simp [listSprintsRoute, hS]
  · simp [listSprintsRoute, hS, List.length_take, List.length_drop, sortListBy_length]
  · simp [listFeaturesRoute, hF]
  · simp [listFeaturesRoute, hF, List.length_take, List.length_drop, sortListBy_length]
  · simp [listDocumentsRoute, hbad, errorHandler]
  · simp [listDocumentsRoute, hbad]
  · simp [listDocumentsRoute, hD2]
  · simp [listDocumentsRoute, hD2]
  · cases hord : rawD2.sortOrder with
    | none => simp [listDocumentsRoute, hD2, hord]
    | some ord => simp [listDocumentsRoute, hD2, hord, sortListBy_length]

/-- C4 witness: the pagination law evaluated on a store holding two
documents: default sprint and feature queries, a documents query with a
string limit (500, no page), and an empty documents query (200, full
list). -/
theorem c4_list_pagination_witness :
    ((listSprintsRoute stTwoDocuments (some "r12")
        { projectId := none, status := none, limit := none, offset := none
          sortBy := none, sortOrder := none }).total
        = (stTwoDocuments.sprints.filter (sprintWhere
            { projectId := none, status := none, limit := 20, offset := 0
              sortBy := "updatedAt", sortOrder := "desc" })).length
      ∧ (listSprintsRoute stTwoDocuments (some "r12")
          { projectId := none, status := none, limit := none, offset := none
            sortBy := none, sortOrder := none }).sprints.length
          = min 20 ((listSprintsRoute stTwoDocuments (some "r12")
              { projectId := none, status := none, limit := none, offset := none
                sortBy := none, sortOrder := none }).total - 0))
    ∧ ((listFeaturesRoute stTwoDocuments (some "r12")
        { projectId := none, status := none, area := none, limit := none, offset := none
          sortBy := none, sortOrder := none }).total
        = (stTwoDocuments.features.filter (featureWhere
            { projectId := none, status := none, area := none, limit := 20, offset := 0
              sortBy := "updatedAt", sortOrder := "desc" })).length
      ∧ (listFeaturesRoute stTwoDocuments (some "r12")
          { projectId := none, status := none, area := none, limit := none, offset := none
            sortBy := none, sortOrder := none }).features.length
          = min 20 ((listFeaturesRoute stTwoDocuments (some "r12")
              { projectId := none, status := none, area := none, limit := none, offset := none
                sortBy := none, sortOrder := none }).total - 0))
    ∧ ((listDocumentsRoute stTwoDocuments "/v1/documents" "r12"
        { projectId := none, kind := none, limit := some "5", offset := none
          sortBy := none, sortOrder := none }).status = 500
      ∧ (listDocumentsRoute stTwoDocuments "/v1/documents" "r12"
          { projectId := none, kind := none, limit := some "5", offset := none
            sortBy := none, sortOrder := none }).documents = [])
    ∧ ((listDocumentsRoute stTwoDocuments "/v1/documents" "r12"
        { projectId := none, kind := none, limit := none, offset := none
          sortBy := none, sortOrder := none }).status = 200
      ∧ (listDocumentsRoute stTwoDocuments "/v1/documents" "r12"
          { projectId := none, kind := none, limit := none, offset := none
            sortBy := none, sortOrder := none }).total
          = (stTwoDocuments.documents.filter (documentWhere
              { projectId := none, kind := none, limit := none, offset := none
                sortBy := none, sortOrder := none })).length
      ∧ (listDocumentsRoute stTwoDocuments "/v1/documents" "r12"
          { projectId := none, kind := none, limit := none, offset := none
            sortBy := none, sortOrder := none }).documents.length
          = (listDocumentsRoute stTwoDocuments "/v1/documents" "r12"
              { projectId := none, kind := none, limit := none, offset := none
                sortBy := none, sortOrder := none }).total) :=
  c4_list_pagination stTwoDocuments (some "r12") "/v1/documents" "r12"
    { projectId := none, status := none, limit := none, offset := none
      sortBy := none, sortOrder := none }
    { projectId := none, status := none, limit := 20, offset := 0
      sortBy := "updatedAt", sortOrder := "desc" }
    rfl
    { projectId := none, status := none, area := none, limit := none, offset := none
      sortBy := none, sortOrder := none }
    { projectId := none, status := none, area := none, limit := 20, offset := 0
      sortBy := "updatedAt", sortOrder := "desc" }
    rfl
    { projectId := none, kind := none, limit := some "5", offset := none
      sortBy := none, sortOrder := none }
    "5" rfl
    { projectId := none, kind := none, limit := none, offset := none
      sortBy := none, sortOrder := none }
    rfl


/-! ### Claim C5: sprint date-ordering validation -/

/-- C5: creating a sprint whose start date lies after its end date is
rejected with the 422 domain-validation failure although each date passes
its own schema check, and nothing is persisted; on update the end-after-
start invariant is recomputed from the supplied values mixed with the stored
ones and a violation is rejected with 422 before persisting. -/
theorem c5_sprint_date_ordering (st : DbState) (reqId : Option String)
    (ok : SprintItem → Bool)
    (rawC : RawCreateSprint) (dataC : CreateSprintData) (ds de : Int)
    (hparseC : parseCreateSprint rawC = .ok dataC)
    (hproj : st.projects.any (fun p => p.id == dataC.projectId) = true)
    (hdup : st.sprints.any
        (fun sp => sp.projectId == dataC.projectId && sp.code == dataC.code) = false)
    (hsd : dataC.startDate = some ds) (hed : dataC.endDate = some de)
    (hafter : de < ds)
    (idU : String) (rawU : RawUpdateSprint) (u : UpdateSprintData)
    (existing : Sprint) (s2 e2 : Int)
    (hparseU : parseUpdateSprint rawU = .ok u)
    (hfind : st.sprints.find? (fun sp => sp.id == idU) = some existing)
    (hnoconf : (match u.code with
        | some c => c != existing.code
            && st.sprints.any (fun sp => sp.projectId == existing.projectId && sp.code == c)
        | none => false) = false)
    (hs2 : (match u.startDate with | some d => some d | none => existing.startDate) = some s2)
    (he2 : (match u.endDate with | some d => some d | none => existing.endDate) = some e2)
    (hviol : e2 ≤ s2) :
    ((createSprintRoute st reqId ok rawC).status = 422
      ∧ ((createSprintRoute st reqId ok rawC).problem.map ProblemDetails.title)
          = some "Validation Failed"
      ∧ (createSprintRoute st reqId ok rawC).state = st)
    ∧ ((patchSprintRoute st reqId ok idU rawU).status = 422
      ∧ ((patchSprintRoute st reqId ok idU rawU).problem.map ProblemDetails.title)
          = some "Validation Failed"
      ∧ (patchSprintRoute st reqId ok idU rawU).state = st) := by
  have hle : de ≤ ds := le_of_lt hafter
  constructor
  · refine ⟨?_, ?_, ?_⟩ <;>
      simp [createSprintRoute, hparseC, hproj, hdup, hsd, hed, hle, routeProblem]
  · refine ⟨?_, ?_, ?_⟩ <;>
      simp [patchSprintRoute, hparseU, hfind, hnoconf, hs2, he2, hviol, routeProblem]

/-- C5 witness: the date invariant evaluated on a create body with start 200
after end 100, and on an update moving the stored start past the stored end. -/
theorem c5_sprint_date_ordering_witness :
    ((createSprintRoute stOneSprint (some "r13") (fun _ => true)
        { projectId := some "cproj00000001", code := some "SPR-010", name := some "S"
          status := none, startDate := some 200, endDate := some 100, items := none }).status = 422
      ∧ ((createSprintRoute stOneSprint (some "r13") (fun _ => true)
          { projectId := some "cproj00000001", code := some "SPR-010", name := some "S"
            status := none, startDate := some 200, endDate := some 100, items := none }).problem.map
            ProblemDetails.title) = some "Validation Failed"
      ∧ (createSprintRoute stOneSprint (some "r13") (fun _ => true)
          { projectId := some "cproj00000001", code := some "SPR-010", name := some "S"
            status := none, startDate := some 200, endDate := some 100, items := none }).state
          = stOneSprint)
    ∧ ((patchSprintRoute stOneSprint (some "r13") (fun _ => true) "cspr000000001"
        { code := none, name := none, status := none
          startDate := some 300, endDate := none, items := none }).status = 422
      ∧ ((patchSprintRoute stOneSprint (some "r13") (fun _ => true) "cspr000000001"
          { code := none, name := none, status := none
            startDate := some 300, endDate := none, items := none }).problem.map
            ProblemDetails.title) = some "Validation Failed"
      ∧ (patchSprintRoute stOneSprint (some "r13") (fun _ => true) "cspr000000001"
          { code := none, name := none, status := none
            startDate := some 300, endDate := none, items := none }).state
          = stOneSprint) :=
  c5_sprint_date_ordering stOneSprint (some "r13") (fun _ => true)
    { projectId := some "cproj00000001", code := some "SPR-010", name := some "S"
      status := none, startDate := some 200, endDate := some 100, items := none }
    { projectId := "cproj00000001", code := "SPR-010", name := "S"
      status := "PLANNED", startDate := some 200, endDate := some 100, items := [] }
    200 100 rfl (by decide) (by decide) rfl rfl (by decide)
    "cspr000000001"
    { code := none, name := none, status := none
      startDate := some 300, endDate := none, items := none }
    { code := none, name := none, status := none
      startDate := some 300, endDate := none, items := none }
    { id := "cspr000000001", projectId := "cproj00000001", code := "SPR-001"
      name := "Sprint One", status := "PLANNED"
      startDate := some 100, endDate := some 200
      createdAt := 1, updatedAt := 1 }
    300 200 rfl (by decide) rfl rfl rfl (by decide)

/-! ### Claim C3: atomic replacement of sprint items -/

/-- C3: a sprint update carrying a replacement items array runs the sprint
field update, the delete of all existing items and the inserts of the new
set in one transaction: under an oracle okA failing some insert the call
answers 500 and leaves the committed store exactly as it was (the sprint
field updates of the same call are rolled back too), while under an oracle
okB accepting every insert the sprint's stored items afterwards are exactly
the freshly inserted rows and every prior item of the sprint is gone. -/
theorem c3_sprint_items_atomic (st : DbState) (reqId : Option String)
    (id : String) (raw : RawUpdateSprint) (u : UpdateSprintData)
    (existing : Sprint) (newItems : List SprintItemInput)
    (hparse : parseUpdateSprint raw = .ok u)
    (hfind : st.sprints.find? (fun s => s.id == id) = some existing)
    (hitems : u.items = some newItems)
    (hnoconf : (match u.code with
        | some c => c != existing.code
            && st.sprints.any (fun s => s.projectId == existing.projectId && s.code == c)
        | none => false) = false)
    (hnodate : (match
        (match u.startDate with | some d => some d | none => existing.startDate),
        (match u.endDate with | some d => some d | none => existing.endDate) with
        | some s, some e => decide (e ≤ s)
        | _, _ => false) = false)
    (okA : SprintItem → Bool)
    (hfail : createItemsLoop okA existing.id newItems 0 (st.nextId + 1) = .error ())
    (okB : SprintItem → Bool) (rows : List SprintItem) (m : Nat)
    (hok : createItemsLoop okB existing.id newItems 0 (st.nextId + 1) = .ok (rows, m)) :
    ((patchSprintRoute st reqId okA id raw).status = 500
      ∧ (patchSprintRoute st reqId okA id raw).state = st)
    ∧ ((patchSprintRoute st reqId okB id raw).status = 200
      ∧ (patchSprintRoute st reqId okB id raw).state.sprintItems
          = st.sprintItems.filter (fun it => it.sprintId != existing.id) ++ rows
      ∧ rows.all (fun r => r.sprintId == existing.id) = true) := by
  have hrows := createItemsLoop_ok_eq okB existing.id newItems 0 (st.nextId + 1) rows m hok
  constructor
  · constructor <;>
      simp [patchSprintRoute, hparse, hfind, hnoconf, hnodate, patchSprintTx, hitems,
        hfail, routeProblem]
  · refine ⟨?_, ?_, ?_⟩
    · simp [patchSprintRoute, hparse, hfind, hnoconf, hnodate, patchSprintTx, hitems, hok]
    · simp [patchSprintRoute, hparse, hfind, hnoconf, hnodate, patchSprintTx, hitems, hok]
    · rw [hrows.1]
      exact builtRows_sprintId existing.id newItems 0 (st.nextId + 1)

/-- C3 witness: the atomic replacement evaluated on the stored sprint with a
two-item replacement list, once under an oracle rejecting the second insert
and once under an oracle accepting every insert. -/
theorem c3_sprint_items_atomic_witness :
    ((patchSprintRoute stOneSprint (some "r14") (fun r => r.text != "boom")
        "cspr000000001"
        { code := none, name := some "Renamed", status := none
          startDate := none, endDate := none
          items := some [ { text := some "keep", checked := none, order := none }
                        , { text := some "boom", checked := some true, order := some 2 } ] }).status = 500
      ∧ (patchSprintRoute stOneSprint (some "r14") (fun r => r.text != "boom")
          "cspr000000001"
          { code := none, name := some "Renamed", status := none
            startDate := none, endDate := none
            items := some [ { text := some "keep", checked := none, order := none }
                          , { text := some "boom", checked := some true, order := some 2 } ] }).state
          = stOneSprint)
    ∧ ((patchSprintRoute stOneSprint (some "r14") (fun _ => true) "cspr000000001"
        { code := none, name := some "Renamed", status := none
          startDate := none, endDate := none
          items := some [ { text := some "keep", checked := none, order := none }
                        , { text := some "boom", checked := some true, order := some 2 } ] }).status = 200
      ∧ (patchSprintRoute stOneSprint (some "r14") (fun _ => true) "cspr000000001"
          { code := none, name := some "Renamed", status := none
            startDate := none, endDate := none
            items := some [ { text := some "keep", checked := none, order := none }
                          , { text := some "boom", checked := some true, order := some 2 } ] }).state.sprintItems
          = stOneSprint.sprintItems.filter (fun it => it.sprintId != "cspr000000001")
              ++ [ { id := "row31", sprintId := "cspr000000001", text := "keep"
                     checked := false, order := 0, createdAt := 31, updatedAt := 31 }
                 , { id := "row32", sprintId := "cspr000000001", text := "boom"
                     checked := true, order := 2, createdAt := 32, updatedAt := 32 } ]
      ∧ ([ { id := "row31", sprintId := "cspr000000001", text := "keep"
             checked := false, order := 0, createdAt := 31, updatedAt := 31 }
         , { id := "row32", sprintId := "cspr000000001", text := "boom"
             checked := true, order := 2, createdAt := 32, updatedAt := 32 }
         ] : List SprintItem).all (fun r => r.sprintId == "cspr000000001") = true) :=
  c3_sprint_items_atomic stOneSprint (some "r14") "cspr000000001"
    { code := none, name := some "Renamed", status := none
      startDate := none, endDate := none
      items := some [ { text := some "keep", checked := none, order := none }
                    , { text := some "boom", checked := some true, order := some 2 } ] }
    { code := none, name := some "Renamed", status := none
      startDate := none, endDate := none
      items := some [ { text := "keep", checked := false, order := 0 }
                    , { text := "boom", checked := true, order := 2 } ] }
    { id := "cspr000000001", projectId := "cproj00000001", code := "SPR-001"
      name := "Sprint One", status := "PLANNED"
      startDate := some 100, endDate := some 200
      createdAt := 1, updatedAt := 1 }
    [ { text := "keep", checked := false, order := 0 }
    , { text := "boom", checked := true, order := 2 } ]
    rfl rfl rfl rfl rfl
    (fun r => r.text != "boom") rfl
    (fun _ => true)
    [ { id := "row31", sprintId := "cspr000000001", text := "keep"
        checked := false, order := 0, createdAt := 31, updatedAt := 31 }
    , { id := "row32", sprintId := "cspr000000001", text := "boom"
        checked := true, order := 2, createdAt := 32, updatedAt := 32 } ]
    33 rfl

/-! ### Claim C10: stored item order is the submitted order or-else the index -/

/-- C10: on sprint create, and on sprint update with a replacement items
array, the i-th submitted item is stored with its submitted order unless
that order is 0 (an absent order defaults to 0), in which case the
positional index i is stored instead — an explicitly supplied order of 0 is
overridden by the position. -/
theorem c10_item_order (st : DbState) (reqId : Option String)
    (ok : SprintItem → Bool)
    (rawC : RawCreateSprint) (dataC : CreateSprintData)
    (hparseC : parseCreateSprint rawC = .ok dataC)
    (spC : Sprint) (rowsC : List SprintItem)
    (hC : (createSprintRoute st reqId ok rawC).sprint = some (spC, rowsC))
    (idU : String) (rawU : RawUpdateSprint) (u : UpdateSprintData)
    (newItems : List SprintItemInput)
    (hparseU : parseUpdateSprint rawU = .ok u)
    (hitemsU : u.items = some newItems)
    (spU : Sprint) (rowsU : List SprintItem)
    (hU : (patchSprintRoute st reqId ok idU rawU).sprint = some (spU, rowsU)) :
    rowsC.map (fun r => r.order) = expectedOrders dataC.items 0
      ∧ rowsU.map (fun r => r.order) = expectedOrders newItems 0 := by
  constructor
  · simp only [createSprintRoute, hparseC] at hC
    split at hC
    · simp at hC
    · split at hC
      · simp at hC
      · split at hC
        · simp at hC
        · cases htx : createSprintTx st ok dataC with
          | ok trip =>
            rw [htx] at hC
            obtain ⟨sp1, rows1, st1⟩ := trip
            simp only [Option.some.injEq, Prod.mk.injEq] at hC
            simp only [createSprintTx] at htx
            cases hloop : createItemsLoop ok (freshId st.nextId) dataC.items 0 (st.nextId + 1) with
            | ok p =>
              rw [hloop] at htx
              obtain ⟨r, n⟩ := p
              simp only [Except.ok.injEq, Prod.mk.injEq] at htx
              have hb := createItemsLoop_ok_eq ok (freshId st.nextId) dataC.items 0
                (st.nextId + 1) r n hloop
              rw [← hC.2, ← htx.2.1, hb.1]
              exact builtRows_orders (freshId st.nextId) dataC.items 0 (st.nextId + 1)
            | error e =>
              rw [hloop] at htx
              cases htx
          | error e =>
            rw [htx] at hC
            simp at hC
  · cases hfind : st.sprints.find? (fun s => s.id == idU) with
    | none =>
      simp [patchSprintRoute, hparseU, hfind] at hU
    | some ex =>
      simp only [patchSprintRoute, hparseU, hfind] at hU
      split at hU
      · simp at hU
      · split at hU
        · simp at hU
        · cases htx : patchSprintTx st ok ex u with
          | ok trip =>
            rw [htx] at hU
            obtain ⟨sp1, rows1, st1⟩ := trip
            simp only [Option.some.injEq, Prod.mk.injEq] at hU
            simp only [patchSprintTx, hitemsU] at htx
            cases hloop : createItemsLoop ok ex.id newItems 0 (st.nextId + 1) with
            | ok p =>
              rw [hloop] at htx
              obtain ⟨r, n⟩ := p
              simp only [Except.ok.injEq, Prod.mk.injEq] at htx
              have hb := createItemsLoop_ok_eq ok ex.id newItems 0 (st.nextId + 1) r n hloop
              rw [← hU.2, ← htx.2.1, hb.1]
              exact builtRows_orders ex.id newItems 0 (st.nextId + 1)
            | error e =>
              rw [hloop] at htx
              cases htx
          | error e =>
            rw [htx] at hU
            simp at hU

/-- C10 witness: the order rule evaluated on a create with submitted orders
absent, 5 and an explicit 0 (stored 0, 5, 2) and an update replacement with
orders absent and an explicit 0 (stored 0, 1). -/
theorem c10_item_order_witness :
    ([ { id := "row31", sprintId := "row30", text := "a"
         checked := false, order := 0, createdAt := 31, updatedAt := 31 }
     , { id := "row32", sprintId := "row30", text := "b"
         checked := false, order := 5, createdAt := 32, updatedAt := 32 }
     , { id := "row33", sprintId := "row30", text := "c"
         checked := false, order := 2, createdAt := 33, updatedAt := 33 }
     ] : List SprintItem).map (fun r => r.order)
        = expectedOrders
            [ { text := "a", checked := false, order := 0 }
            , { text := "b", checked := false, order := 5 }
            , { text := "c", checked := false, order := 0 } ] 0
      ∧ ([ { id := "row31", sprintId := "cspr000000001", text := "x"
             checked := false, order := 0, createdAt := 31, updatedAt := 31 }
         , { id := "row32", sprintId := "cspr000000001", text := "y"
             checked := false, order := 1, createdAt := 32, updatedAt := 32 }
         ] : List SprintItem).map (fun r => r.order)
          = expectedOrders
              [ { text := "x", checked := false, order := 0 }
              , { text := "y", checked := false, order := 0 } ] 0 :=
  c10_item_order stOneSprint (some "r15") (fun _ => true)
    { projectId := some "cproj00000001", code := some "SPR-020", name := some "Two"
      status := none, startDate := none, endDate := none
      items := some [ { text := some "a", checked := none, order := none }
                    , { text := some "b", checked := none, order := some 5 }
                    , { text := some "c", checked := none, order := some 0 } ] }
    { projectId := "cproj00000001", code := "SPR-020", name := "Two"
      status := "PLANNED", startDate := none, endDate := none
      items := [ { text := "a", checked := false, order := 0 }
               , { text := "b", checked := false, order := 5 }
               , { text := "c", checked := false, order := 0 } ] }
    rfl
    { id := "row30", projectId := "cproj00000001", code := "SPR-020", name := "Two"
      status := "PLANNED", startDate := none, endDate := none
      createdAt := 30, updatedAt := 30 }
    [ { id := "row31", sprintId := "row30", text := "a"
        checked := false, order := 0, createdAt := 31, updatedAt := 31 }
    , { id := "row32", sprintId := "row30", text := "b"
        checked := false, order := 5, createdAt := 32, updatedAt := 32 }
    , { id := "row33", sprintId := "row30", text := "c"
        checked := false, order := 2, createdAt := 33, updatedAt := 33 } ]
    rfl
    "cspr000000001"
    { code := none, name := none, status := none
      startDate := none, endDate := none
      items := some [ { text := some "x", checked := none, order := none }
                    , { text := some "y", checked := none, order := some 0 } ] }
    { code := none, name := none, status := none
      startDate := none, endDate := none
      items := some [ { text := "x", checked := false, order := 0 }
                    , { text := "y", checked := false, order := 0 } ] }
    [ { text := "x", checked := false, order := 0 }
    , { text := "y", checked := false, order := 0 } ]
    rfl rfl
    { id := "cspr000000001", projectId := "cproj00000001", code := "SPR-001"
      name := "Sprint One", status := "PLANNED"
      startDate := some 100, endDate := some 200
      createdAt := 1, updatedAt := 30 }
    [ { id := "row31", sprintId := "cspr000000001", text := "x"
        checked := false, order := 0, createdAt := 31, updatedAt := 31 }
    , { id := "row32", sprintId := "cspr000000001", text := "y"
        checked := false, order := 1, createdAt := 32, updatedAt := 32 } ]
    rfl

end OnePlan
